import Mathlib

/-!
# Verification of the stm-mcp GTFS trip-planning core

Shallow embedding of the schedule/trip-planning core of the `stm-mcp`
repository (`src/stm_mcp/services/schedule_service.py` and
`src/stm_mcp/services/trip_planner.py`), together with proofs of the
behavioural claims about it.

Modelling conventions:
* Python strings are Lean `String`s; the character-level behaviour of the
  Python built-ins used by the source (`str.strip`, `str.split`, `int(...)`,
  `f"{n:02d}"` formatting) is modelled by explicit functions on `List Char`.
* Python `int` is `Int`; `//` (floor division) is `Int.fdiv`.
* Functions that can raise `ValueError` are modelled with `Option`/`Except`
  (`none`/`.error` = the exception propagates).
* Python floats (only the haversine distance) are modelled as `ℚ`, and the
  distance function itself is kept as an explicit parameter, since none of
  the verified claims depend on its numeric values.
* SQL tables are lists of row structures; SQL string comparison (`BETWEEN`,
  `>=`, `<=`, `ORDER BY` on `TEXT` columns) is the lexicographic order on
  `String`.
* Python `datetime.date` values are modelled by their proleptic-Gregorian
  ordinal (an `Int`): `d - 1` is "the previous day".
-/

namespace StmMcp

/-! ## Python string built-ins -/

/-- The ASCII whitespace characters stripped by Python's `str.strip()` /
`int(...)`. -/
def isPySpace (c : Char) : Bool :=
  c = ' ' ∨ c = '\t' ∨ c = '\n' ∨ c = '\x0d' ∨ c = '\x0b' ∨ c = '\x0c'

/-- Python `str.strip()` on a list of characters. -/
def pyStrip (l : List Char) : List Char :=
  ((l.dropWhile isPySpace).reverse.dropWhile isPySpace).reverse

/-- Python `str.split(sep)` for a single-character separator: splitting the
empty string yields `[""]`, adjacent separators yield empty pieces. -/
def pySplit (sep : Char) : List Char → List (List Char)
  | [] => [[]]
  | c :: rest =>
    match pySplit sep rest with
    | [] => [[]]
    | x :: xs => if c = sep then [] :: x :: xs else (c :: x) :: xs

/-- ASCII decimal digit test. -/
def isDigitChar (c : Char) : Bool := '0' ≤ c ∧ c ≤ '9'

/-- Numeric value of an ASCII digit character. -/
def digitVal (c : Char) : Nat := c.toNat - 48

/-- Value of a (most-significant-first) digit string. -/
def digitsVal (l : List Char) : Nat :=
  l.foldl (fun a c => 10 * a + digitVal c) 0

/-- Python `int(s)`: strip whitespace, optional single sign, then a nonempty
run of decimal digits; anything else raises `ValueError` (= `none`). -/
def pyIntOfChars (l : List Char) : Option Int :=
  match pyStrip l with
  | [] => none
  | c :: rest =>
    if c = '-' then
      if rest ≠ [] ∧ rest.all isDigitChar then some (-(digitsVal rest : Int)) else none
    else if c = '+' then
      if rest ≠ [] ∧ rest.all isDigitChar then some ((digitsVal rest : Int)) else none
    else if (c :: rest).all isDigitChar then some ((digitsVal (c :: rest) : Int)) else none

/-- The ASCII character of a decimal digit (`d < 10`). -/
def digitChar : Nat → Char
  | 0 => '0' | 1 => '1' | 2 => '2' | 3 => '3' | 4 => '4'
  | 5 => '5' | 6 => '6' | 7 => '7' | 8 => '8' | _ => '9'

/-- Decimal digits of `n`, most significant first (fuel-driven so that it
reduces definitionally; `natChars (n+1) n` is total for fuel `> n`). -/
def natChars : Nat → Nat → List Char
  | 0, _ => []
  | fuel + 1, n =>
    if n < 10 then [digitChar n] else natChars fuel (n / 10) ++ [digitChar (n % 10)]

/-- Python `str(k)` for an integer `k`. -/
def intChars (k : Int) : List Char :=
  if k < 0 then '-' :: natChars (k.natAbs + 1) k.natAbs else natChars (k.natAbs + 1) k.natAbs

/-- Python `f"{k:02d}"`: zero-pad to width 2 (the sign counts toward the
width, exactly as in Python). -/
def pad2 (k : Int) : List Char :=
  if (intChars k).length < 2 then '0' :: intChars k else intChars k

/-- The expression `f"{h:02d}:{m:02d}:{s:02d}"` — the time-formatting expression used
throughout `schedule_service.py`. -/
def formatHMS (h m s : Int) : String :=
  ⟨pad2 h ++ ':' :: (pad2 m ++ ':' :: pad2 s)⟩

/-! ## GTFS time arithmetic (`schedule_service.py`) -/

/-- Model of `parse_gtfs_time`: `time_str.strip().split(":")`, exactly three parts,
each parsed by `int(...)`.  `none` models the raised `ValueError`.  The
source's `safe_parse_gtfs_time` wraps the same computation in
`try/except` and is therefore the identical `Option`-valued function. -/
def parse_gtfs_time (time_str : String) : Option (Int × Int × Int) :=
  match pySplit ':' (pyStrip time_str.data) with
  | [p0, p1, p2] => do
    let h ← pyIntOfChars p0
    let m ← pyIntOfChars p1
    let s ← pyIntOfChars p2
    some (h, m, s)
  | _ => none

/-- Model of `safe_parse_gtfs_time`: `parse_gtfs_time` with `ValueError` mapped to
`None` — in the `Option` model the same function. -/
def safe_parse_gtfs_time (time_str : String) : Option (Int × Int × Int) :=
  parse_gtfs_time time_str

/-- Model of `gtfs_time_to_seconds`: `h*3600 + m*60 + s`. -/
def gtfs_time_to_seconds (time_str : String) : Option Int :=
  (parse_gtfs_time time_str).map fun (h, m, s) => h * 3600 + m * 60 + s

/-- Model of `safe_gtfs_time_to_seconds` (identical in the `Option` model). -/
def safe_gtfs_time_to_seconds (time_str : String) : Option Int :=
  gtfs_time_to_seconds time_str

/-- Model of `calculate_minutes_until`: `(arrival_seconds - query_seconds) // 60`
(Python floor division). -/
def calculate_minutes_until (arrival_time query_time : String) : Option Int := do
  let a ← gtfs_time_to_seconds arrival_time
  let q ← gtfs_time_to_seconds query_time
  some (Int.fdiv (a - q) 60)

/-- Constant `LATE_NIGHT_THRESHOLD_HOUR = 4`. -/
def LATE_NIGHT_THRESHOLD_HOUR : Int := 4

/-- Model of `is_time_in_late_night_range`: parsed hours `< 4` (False on parse
failure). -/
def is_time_in_late_night_range (time_str : String) : Bool :=
  match safe_parse_gtfs_time time_str with
  | none => false
  | some (h, _, _) => h < LATE_NIGHT_THRESHOLD_HOUR

/-- Model of `is_extended_time`: parsed hours `>= 24` (False on parse failure). -/
def is_extended_time (time_str : String) : Bool :=
  match safe_parse_gtfs_time time_str with
  | none => false
  | some (h, _, _) => 24 ≤ h

/-- Model of `convert_to_extended_time`: add 24 to the hours when `hours < 24`;
return the input unchanged when already extended or unparsable. -/
def convert_to_extended_time (time_str : String) : String :=
  match safe_parse_gtfs_time time_str with
  | none => time_str
  | some (h, m, s) => if h < 24 then formatHMS (h + 24) m s else time_str

/-- A Python `datetime`: the calendar date as a proleptic-Gregorian ordinal
plus the time-of-day fields. -/
structure PyDateTime where
  day : Int
  hour : Nat
  minute : Nat
  second : Nat
deriving DecidableEq

/-- Model of `time_to_gtfs_format`: `f"{dt.hour:02d}:{dt.minute:02d}:{dt.second:02d}"`. -/
def time_to_gtfs_format (dt : PyDateTime) : String :=
  formatHMS dt.hour dt.minute dt.second

/-- Model of `get_gtfs_service_context`: before 4 AM the service date is the previous
calendar day and the time is extended by 24 hours. -/
def get_gtfs_service_context (dt : PyDateTime) : Int × String × Bool :=
  if (dt.hour : Int) < LATE_NIGHT_THRESHOLD_HOUR then
    (dt.day - 1, formatHMS ((dt.hour : Int) + 24) dt.minute dt.second, true)
  else
    (dt.day, formatHMS dt.hour dt.minute dt.second, false)

/-! ## Round-trip lemmas for the formatting/parsing model -/

theorem digitVal_digitChar {d : Nat} (h : d < 10) : digitVal (digitChar d) = d := by
  interval_cases d <;> decide

theorem isDigitChar_digitChar {d : Nat} (h : d < 10) : isDigitChar (digitChar d) = true := by
  interval_cases d <;> decide

theorem digitsVal_append_singleton (l : List Char) (c : Char) :
    digitsVal (l ++ [c]) = 10 * digitsVal l + digitVal c := by
  simp [digitsVal, List.foldl_append]

theorem digitsVal_zero_cons (l : List Char) : digitsVal ('0' :: l) = digitsVal l := by
  simp only [digitsVal, List.foldl_cons]
  norm_num [show digitVal '0' = 0 from by decide]

theorem natChars_spec :
    ∀ fuel n, n < fuel →
      (natChars fuel n).all isDigitChar = true ∧ natChars fuel n ≠ [] ∧
        digitsVal (natChars fuel n) = n := by
  intro fuel
  induction fuel with
  | zero => intro n h; omega
  | succ f ih =>
    intro n h
    by_cases h10 : n < 10
    · simp only [natChars, if_pos h10]
      refine ⟨?_, by simp, ?_⟩
      · simp [isDigitChar_digitChar h10]
      · simp [digitsVal, digitVal_digitChar h10]
    · have hdiv : n / 10 < n := Nat.div_lt_self (by omega) (by omega)
      have hfuel : n / 10 < f := by omega
      obtain ⟨hall, hne, hval⟩ := ih (n / 10) hfuel
      have hmod : n % 10 < 10 := Nat.mod_lt _ (by omega)
      simp only [natChars, if_neg h10]
      refine ⟨?_, by simp, ?_⟩
      · simp [List.all_append, hall, isDigitChar_digitChar hmod]
      · rw [digitsVal_append_singleton, hval, digitVal_digitChar hmod]
        omega

theorem intChars_nonneg {k : Int} (h : 0 ≤ k) :
    intChars k = natChars (k.natAbs + 1) k.natAbs := by
  rw [intChars, if_neg (by omega)]

theorem intChars_neg {k : Int} (h : k < 0) :
    intChars k = '-' :: natChars (k.natAbs + 1) k.natAbs := by
  rw [intChars, if_pos h]

theorem intChars_all {k : Int} :
    ∀ c ∈ intChars k, isDigitChar c = true ∨ c = '-' := by
  intro c hc
  by_cases h : k < 0
  · rw [intChars_neg h] at hc
    rcases List.mem_cons.mp hc with rfl | hc
    · exact Or.inr rfl
    · exact Or.inl (List.all_eq_true.mp (natChars_spec _ _ (by omega)).1 c hc)
  · rw [intChars_nonneg (by omega)] at hc
    exact Or.inl (List.all_eq_true.mp (natChars_spec _ _ (by omega)).1 c hc)

theorem pad2_all {k : Int} :
    ∀ c ∈ pad2 k, isDigitChar c = true ∨ c = '-' := by
  intro c hc
  by_cases h : (intChars k).length < 2
  · rw [pad2, if_pos h] at hc
    rcases List.mem_cons.mp hc with rfl | hc
    · exact Or.inl (by decide)
    · exact intChars_all c hc
  · rw [pad2, if_neg h] at hc
    exact intChars_all c hc

theorem not_isPySpace_of_digit {c : Char} (h : isDigitChar c = true) :
    isPySpace c = false := by
  by_contra hcon
  have hs : isPySpace c = true := by
    cases hx : isPySpace c
    · exact absurd hx hcon
    · rfl
  simp only [isPySpace, decide_eq_true_eq] at hs
  rcases hs with rfl | rfl | rfl | rfl | rfl | rfl <;> simp [isDigitChar] at h

theorem pad2_not_space {k : Int} : ∀ c ∈ pad2 k, isPySpace c = false := by
  intro c hc
  rcases pad2_all c hc with h | rfl
  · exact not_isPySpace_of_digit h
  · decide

theorem pad2_no_colon {k : Int} : ∀ c ∈ pad2 k, c ≠ ':' := by
  intro c hc
  rcases pad2_all c hc with h | rfl
  · rintro rfl; simp [isDigitChar] at h
  · decide

theorem dropWhile_eq_self_of_none {p : Char → Bool} {l : List Char}
    (h : ∀ c ∈ l, p c = false) : l.dropWhile p = l := by
  cases l with
  | nil => rfl
  | cons c rest => simp [List.dropWhile_cons, h c (by simp)]

theorem pyStrip_eq_self {l : List Char} (h : ∀ c ∈ l, isPySpace c = false) :
    pyStrip l = l := by
  unfold pyStrip
  rw [dropWhile_eq_self_of_none h, dropWhile_eq_self_of_none (by simpa using h),
    List.reverse_reverse]

theorem pySplit_ne_nil (sep : Char) : ∀ l, pySplit sep l ≠ [] := by
  intro l
  cases l with
  | nil => simp [pySplit]
  | cons c rest =>
    rcases h : pySplit sep rest with _ | ⟨x, xs⟩
    · simp [pySplit, h]
    · simp only [pySplit, h]
      split <;> simp

theorem pySplit_no_sep {sep : Char} :
    ∀ {a : List Char}, (∀ c ∈ a, c ≠ sep) → pySplit sep a = [a] := by
  intro a
  induction a with
  | nil => intro _; rfl
  | cons c rest ih =>
    intro h
    have hc : c ≠ sep := h c (by simp)
    rw [pySplit, ih (fun x hx => h x (by simp [hx]))]
    simp [hc]

theorem pySplit_append {sep : Char} :
    ∀ {a : List Char} (t : List Char), (∀ c ∈ a, c ≠ sep) →
      pySplit sep (a ++ sep :: t) = a :: pySplit sep t := by
  intro a
  induction a with
  | nil =>
    intro t _
    rcases h : pySplit sep t with _ | ⟨x, xs⟩
    · exact absurd h (pySplit_ne_nil sep t)
    · rw [List.nil_append, pySplit, h]
      simp
  | cons c rest ih =>
    intro t h
    have hc : c ≠ sep := h c (by simp)
    rw [List.cons_append, pySplit, ih t (fun x hx => h x (by simp [hx]))]
    simp [hc]

theorem pyIntOfChars_cons {l : List Char} {c : Char} {rest : List Char}
    (h : pyStrip l = c :: rest) :
    pyIntOfChars l =
      if c = '-' then
        if rest ≠ [] ∧ rest.all isDigitChar then some (-(digitsVal rest : Int)) else none
      else if c = '+' then
        if rest ≠ [] ∧ rest.all isDigitChar then some ((digitsVal rest : Int)) else none
      else if (c :: rest).all isDigitChar then some ((digitsVal (c :: rest) : Int))
      else none := by
  unfold pyIntOfChars
  rw [h]

theorem pyIntOfChars_pad2 (k : Int) : pyIntOfChars (pad2 k) = some k := by
  have hstrip : pyStrip (pad2 k) = pad2 k := pyStrip_eq_self pad2_not_space
  by_cases hneg : k < 0
  · have hn : 1 ≤ k.natAbs := by omega
    obtain ⟨hall, hne, hval⟩ := natChars_spec (k.natAbs + 1) k.natAbs (by omega)
    have hlen : 2 ≤ (intChars k).length := by
      rw [intChars_neg hneg]
      rcases hx : natChars (k.natAbs + 1) k.natAbs with _ | ⟨y, ys⟩
      · exact absurd hx hne
      · simp
    have hpad : pad2 k = '-' :: natChars (k.natAbs + 1) k.natAbs := by
      rw [pad2, if_neg (by omega), intChars_neg hneg]
    rw [pyIntOfChars_cons (by rw [hstrip, hpad]), if_pos rfl, if_pos ⟨hne, hall⟩, hval]
    congr 1
    omega
  · push_neg at hneg
    obtain ⟨hall, hne, hval⟩ := natChars_spec (k.natAbs + 1) k.natAbs (by omega)
    by_cases h10 : k.natAbs < 10
    · have hnat : natChars (k.natAbs + 1) k.natAbs = [digitChar k.natAbs] := by
        simp [natChars, h10]
      have hpad : pad2 k = '0' :: [digitChar k.natAbs] := by
        rw [pad2, intChars_nonneg hneg, hnat]
        rfl
      have hdig : isDigitChar (digitChar k.natAbs) = true := isDigitChar_digitChar h10
      rw [pyIntOfChars_cons (by rw [hstrip, hpad]), if_neg (by decide), if_neg (by decide),
        if_pos (by simp only [List.all_cons, hdig, Bool.and_true]; decide), digitsVal_zero_cons]
      rw [hnat] at hval
      rw [hval]
      congr 1
      omega
    · have hpad : pad2 k = natChars (k.natAbs + 1) k.natAbs := by
        have hlen : 2 ≤ (intChars k).length := by
          rw [intChars_nonneg hneg]
          simp only [natChars, if_neg h10, List.length_append]
          have hsub := (natChars_spec (k.natAbs) (k.natAbs / 10)
            (by
              have := Nat.div_lt_self (n := k.natAbs) (by omega) (show 1 < 10 by omega)
              omega)).2.1
          rcases hx : natChars k.natAbs (k.natAbs / 10) with _ | ⟨y, ys⟩
          · exact absurd hx hsub
          · simp
        rw [pad2, if_neg (by omega), intChars_nonneg hneg]
      rcases hx : natChars (k.natAbs + 1) k.natAbs with _ | ⟨c, rest⟩
      · exact absurd hx hne
      · have hcd : isDigitChar c = true :=
          List.all_eq_true.mp hall c (by rw [hx]; simp)
        have hcm : c ≠ '-' := by rintro rfl; simp [isDigitChar] at hcd
        have hcp : c ≠ '+' := by rintro rfl; simp [isDigitChar] at hcd
        rw [pyIntOfChars_cons (by rw [hstrip, hpad, hx]), if_neg hcm, if_neg hcp,
          if_pos (by rw [← hx]; exact hall), ← hx, hval]
        congr 1
        omega

theorem data_mk (l : List Char) : (String.mk l).data = l := rfl

theorem parse_formatHMS (h m s : Int) :
    parse_gtfs_time (formatHMS h m s) = some (h, m, s) := by
  have hsp : ∀ c ∈ pad2 h ++ ':' :: (pad2 m ++ ':' :: pad2 s), isPySpace c = false := by
    intro c hc
    simp only [List.mem_append, List.mem_cons] at hc
    rcases hc with hc | rfl | hc | rfl | hc
    · exact pad2_not_space c hc
    · decide
    · exact pad2_not_space c hc
    · decide
    · exact pad2_not_space c hc
  rw [parse_gtfs_time, formatHMS, data_mk, pyStrip_eq_self hsp]
  rw [pySplit_append _ (pad2_no_colon), pySplit_append _ (pad2_no_colon),
    pySplit_no_sep (pad2_no_colon)]
  simp [pyIntOfChars_pad2]

theorem safe_parse_formatHMS (h m s : Int) :
    safe_parse_gtfs_time (formatHMS h m s) = some (h, m, s) :=
  parse_formatHMS h m s

theorem toSeconds_formatHMS (h m s : Int) :
    gtfs_time_to_seconds (formatHMS h m s) = some (h * 3600 + m * 60 + s) := by
  rw [gtfs_time_to_seconds, parse_formatHMS]
  rfl

theorem convert_of_parse_some {t : String} {h m s : Int}
    (hp : safe_parse_gtfs_time t = some (h, m, s)) :
    convert_to_extended_time t = if h < 24 then formatHMS (h + 24) m s else t := by
  unfold convert_to_extended_time
  rw [hp]

theorem convert_of_parse_none {t : String} (hp : safe_parse_gtfs_time t = none) :
    convert_to_extended_time t = t := by
  unfold convert_to_extended_time
  rw [hp]

/-! ## Claims C3, C4, C9: time arithmetic and late-night context -/

/-- C4 counterexample: The spec says `minutesUntil` divides
`(toSeconds(target) − toSeconds(reference))` by 60 *truncating toward
zero*; the code uses Python's `//`, which floors.  At
`target = "00:00:30"`, `reference = "00:01:00"` the difference is `-30`
seconds: the code returns `-1`, truncation toward zero would return `0`. -/
theorem c4_minutes_until_truncation_fails :
    calculate_minutes_until "00:00:30" "00:01:00" = some (-1) ∧
      gtfs_time_to_seconds "00:00:30" = some 30 ∧
      gtfs_time_to_seconds "00:01:00" = some 60 ∧
      Int.tdiv (30 - 60) 60 = 0 ∧ (-1 : Int) ≠ (0 : Int) := by
  refine ⟨by decide, by decide, by decide, by decide, by decide⟩

/-- C4 amended: For every pair of valid GTFS time strings,
`calculate_minutes_until target reference` equals
`(toSeconds target − toSeconds reference)` *floor*-divided by 60 (Python
`//`, rounding toward −∞); the result may be negative when the target
precedes the reference. -/
theorem c4_minutes_until_is_floor_div (target reference : String) (a q : Int)
    (ht : gtfs_time_to_seconds target = some a)
    (hr : gtfs_time_to_seconds reference = some q) :
    calculate_minutes_until target reference = some (Int.fdiv (a - q) 60) := by
  rw [calculate_minutes_until, ht, hr]
  rfl

theorem c4_minutes_until_is_floor_div_witness :
    gtfs_time_to_seconds "00:00:30" = some 30 ∧
      gtfs_time_to_seconds "00:01:00" = some 60 ∧
      calculate_minutes_until "00:00:30" "00:01:00" = some (Int.fdiv (30 - 60) 60) :=
  ⟨by decide, by decide,
    c4_minutes_until_is_floor_div "00:00:30" "00:01:00" 30 60 (by decide) (by decide)⟩

/-- C9 counterexample: `convert_to_extended_time` is *not* idempotent on
arbitrary inputs: `"-05:00:00"` parses (Python `int("-05") = -5`), `-5 < 24`
so 24 is added, producing `"19:00:00"`; a second application produces
`"43:00:00"`. -/
theorem c9_not_idempotent_on_negative_hours :
    convert_to_extended_time "-05:00:00" = "19:00:00" ∧
      convert_to_extended_time (convert_to_extended_time "-05:00:00") = "43:00:00" ∧
      convert_to_extended_time (convert_to_extended_time "-05:00:00") ≠
        convert_to_extended_time "-05:00:00" := by
  refine ⟨by decide, by decide, by decide⟩

/-- C9 amended: `convert_to_extended_time` is idempotent on every
input that either fails to parse or parses with a nonnegative hour field —
in particular on all well-formed, already-extended and malformed times; the
only exceptions are exotic strings with negative hours. -/
theorem c9_convert_to_extended_idempotent (t : String)
    (hh : (safe_parse_gtfs_time t).elim True (fun x => 0 ≤ x.1)) :
    convert_to_extended_time (convert_to_extended_time t) = convert_to_extended_time t := by
  rcases hp : safe_parse_gtfs_time t with _ | ⟨h, m, s⟩
  · rw [convert_of_parse_none hp, convert_of_parse_none hp]
  · rw [hp] at hh
    simp only [Option.elim] at hh
    by_cases h24 : h < 24
    · rw [convert_of_parse_some hp, if_pos h24,
        convert_of_parse_some (safe_parse_formatHMS (h + 24) m s), if_neg (by omega)]
    · rw [convert_of_parse_some hp, if_neg h24, convert_of_parse_some hp, if_neg h24]

theorem c9_convert_to_extended_idempotent_witness :
    ((safe_parse_gtfs_time "02:10:00").elim True (fun x => 0 ≤ x.1) ∧
      convert_to_extended_time (convert_to_extended_time "02:10:00") =
        convert_to_extended_time "02:10:00") ∧
    ((safe_parse_gtfs_time "garbage").elim True (fun x => 0 ≤ x.1) ∧
      convert_to_extended_time (convert_to_extended_time "garbage") =
        convert_to_extended_time "garbage") := by
  have h1 : (safe_parse_gtfs_time "02:10:00").elim True (fun x => 0 ≤ x.1) :=
    (by decide : (0 : Int) ≤ 2)
  have h2 : (safe_parse_gtfs_time "garbage").elim True (fun x => 0 ≤ x.1) := trivial
  exact ⟨⟨h1, c9_convert_to_extended_idempotent "02:10:00" h1⟩,
    ⟨h2, c9_convert_to_extended_idempotent "garbage" h2⟩⟩

/-- C3 confirmed: For every datetime, if the hour is `< 4` the
late-night context resolver returns yesterday's date, the time-of-day in
extended (+24h) form, and a set late-night flag; otherwise it returns
today's date, the plain `HH:MM:SS` time, and a clear flag.  The extended
time string is exactly `convert_to_extended_time` applied to the plain
formatted time, and its seconds value is the plain seconds value plus
86400. -/
theorem c3_gtfs_service_context (dt : PyDateTime) :
    ((dt.hour : Int) < 4 →
      get_gtfs_service_context dt =
        (dt.day - 1, convert_to_extended_time (time_to_gtfs_format dt), true) ∧
      gtfs_time_to_seconds (get_gtfs_service_context dt).2.1 =
        some (((dt.hour : Int) + 24) * 3600 + (dt.minute : Int) * 60 + (dt.second : Int))) ∧
    (¬((dt.hour : Int) < 4) →
      get_gtfs_service_context dt = (dt.day, time_to_gtfs_format dt, false) ∧
      gtfs_time_to_seconds (get_gtfs_service_context dt).2.1 =
        some ((dt.hour : Int) * 3600 + (dt.minute : Int) * 60 + (dt.second : Int))) := by
  constructor
  · intro h
    have hctx : get_gtfs_service_context dt =
        (dt.day - 1, formatHMS ((dt.hour : Int) + 24) dt.minute dt.second, true) := by
      rw [get_gtfs_service_context, if_pos (show (dt.hour : Int) < LATE_NIGHT_THRESHOLD_HOUR from h)]
    refine ⟨?_, ?_⟩
    · rw [hctx, time_to_gtfs_format,
        convert_of_parse_some (safe_parse_formatHMS dt.hour dt.minute dt.second),
        if_pos (by omega)]
    · rw [hctx]
      exact toSeconds_formatHMS _ _ _
  · intro h
    have hctx : get_gtfs_service_context dt =
        (dt.day, formatHMS dt.hour dt.minute dt.second, false) := by
      rw [get_gtfs_service_context,
        if_neg (show ¬((dt.hour : Int) < LATE_NIGHT_THRESHOLD_HOUR) from h)]
    exact ⟨by rw [hctx, time_to_gtfs_format], by rw [hctx]; exact toSeconds_formatHMS _ _ _⟩

theorem c3_gtfs_service_context_witness :
    (((1 : Nat) : Int) < 4 ∧
      get_gtfs_service_context ⟨739000, 1, 30, 0⟩ =
        (739000 - 1, convert_to_extended_time (time_to_gtfs_format ⟨739000, 1, 30, 0⟩), true)) ∧
    (¬(((5 : Nat) : Int) < 4) ∧
      get_gtfs_service_context ⟨739000, 5, 0, 0⟩ =
        (739000, time_to_gtfs_format ⟨739000, 5, 0, 0⟩, false)) :=
  ⟨⟨by decide, ((c3_gtfs_service_context ⟨739000, 1, 30, 0⟩).1 (by decide)).1⟩,
    ⟨by decide, ((c3_gtfs_service_context ⟨739000, 5, 0, 0⟩).2 (by decide)).1⟩⟩

/-! ## Service-day resolver (`get_active_service_ids`)

The database is modelled as lists of row structures.  The query date enters
the source function only through `date_to_gtfs_format(query_date)` (a
`YYYYMMDD` string) and `query_date.weekday()` (0 = Monday … 6 = Sunday), so
the model takes exactly those two values.  SQL `BETWEEN` on the `TEXT`
date columns is lexicographic string comparison. -/

/-- A row of the `calendar` table. -/
structure CalendarRow where
  service_id : String
  monday : Int
  tuesday : Int
  wednesday : Int
  thursday : Int
  friday : Int
  saturday : Int
  sunday : Int
  start_date : String
  end_date : String
deriving DecidableEq

/-- The weekday column selected by `WEEKDAY_COLUMNS[query_date.weekday()]`. -/
def CalendarRow.weekdayFlag (r : CalendarRow) : Fin 7 → Int
  | ⟨0, _⟩ => r.monday
  | ⟨1, _⟩ => r.tuesday
  | ⟨2, _⟩ => r.wednesday
  | ⟨3, _⟩ => r.thursday
  | ⟨4, _⟩ => r.friday
  | ⟨5, _⟩ => r.saturday
  | ⟨6, _⟩ => r.sunday
  | ⟨n + 7, h⟩ => absurd h (by omega)

/-- A row of the `calendar_dates` table. -/
structure CalendarDateRow where
  service_id : String
  date : String
  exception_type : Int
deriving DecidableEq

/-- The `WHERE ? BETWEEN start_date AND end_date AND {weekday_col} = 1`
condition of the base-services query. -/
def calendarActiveOn (dateStr : String) (weekday : Fin 7) (r : CalendarRow) : Bool :=
  (r.start_date ≤ dateStr ∧ dateStr ≤ r.end_date) ∧ r.weekdayFlag weekday = 1

/-- Step 1 of `get_active_service_ids`: the base service set from `calendar`. -/
def calendar_base (cal : List CalendarRow) (dateStr : String) (weekday : Fin 7) :
    Finset String :=
  ((cal.filter (calendarActiveOn dateStr weekday)).map (·.service_id)).toFinset

/-- One iteration of the exception loop: `exception_type = 2` discards the
service id, `exception_type = 1` inserts it, anything else is ignored. -/
def applyException (acc : Finset String) (r : CalendarDateRow) : Finset String :=
  if r.exception_type = 2 then acc.erase r.service_id
  else if r.exception_type = 1 then insert r.service_id acc
  else acc

/-- Model of `get_active_service_ids`: calendar base set, then the `calendar_dates`
exceptions for exactly the query date applied in row order. -/
def get_active_service_ids (cal : List CalendarRow) (cdates : List CalendarDateRow)
    (dateStr : String) (weekday : Fin 7) : Finset String :=
  (cdates.filter (fun r => r.date = dateStr)).foldl applyException
    (calendar_base cal dateStr weekday)

theorem mem_applyException_of_ne {acc : Finset String} {r : CalendarDateRow} {s : String}
    (h : r.service_id ≠ s) : s ∈ applyException acc r ↔ s ∈ acc := by
  unfold applyException
  split_ifs <;>
    simp [Finset.mem_erase, Finset.mem_insert, Ne.symm h]

theorem mem_foldl_applyException_of_no_rows :
    ∀ (l : List CalendarDateRow) (acc : Finset String) (s : String),
      (∀ r ∈ l, r.service_id ≠ s) →
      (s ∈ l.foldl applyException acc ↔ s ∈ acc) := by
  intro l
  induction l with
  | nil => intro acc s _; rfl
  | cons r t ih =>
    intro acc s h
    rw [List.foldl_cons, ih _ s (fun x hx => h x (by simp [hx])),
      mem_applyException_of_ne (h r (by simp))]

theorem mem_foldl_applyException :
    ∀ (l : List CalendarDateRow) (acc : Finset String) (s : String),
      l.Pairwise (fun a b => a.service_id ≠ b.service_id) →
      (s ∈ l.foldl applyException acc ↔
        ((∃ r ∈ l, r.service_id = s ∧ r.exception_type = 1) ∨
          ((∀ r ∈ l, r.service_id = s → r.exception_type ≠ 2) ∧ s ∈ acc))) := by
  intro l
  induction l with
  | nil => intro acc s _; simp
  | cons r t ih =>
    intro acc s hp
    rw [List.pairwise_cons] at hp
    obtain ⟨hr, hpt⟩ := hp
    rw [List.foldl_cons]
    by_cases hid : r.service_id = s
    · have hnone : ∀ x ∈ t, x.service_id ≠ s := fun x hx => by
        rw [← hid]; exact (hr x hx).symm
      rw [mem_foldl_applyException_of_no_rows t _ s hnone]
      unfold applyException
      split_ifs with h2 h1
      · constructor
        · intro hs
          exact absurd hid.symm (Finset.mem_erase.mp hs).1
        · rintro (⟨x, hx, hxs, hx1⟩ | ⟨hno, _⟩)
          · rcases List.mem_cons.mp hx with rfl | hx
            · omega
            · exact absurd hxs (hnone x hx)
          · exact absurd h2 (hno r (by simp) hid)
      · simp only [Finset.mem_insert, hid]
        constructor
        · intro _; exact Or.inl ⟨r, by simp, hid, h1⟩
        · intro _; simp
      · constructor
        · intro hs
          refine Or.inr ⟨?_, hs⟩
          intro x hx hxs
          rcases List.mem_cons.mp hx with rfl | hx
          · exact h2
          · exact absurd hxs (hnone x hx)
        · rintro (⟨x, hx, hxs, hx1⟩ | ⟨_, hs⟩)
          · rcases List.mem_cons.mp hx with rfl | hx
            · exact absurd hx1 h1
            · exact absurd hxs (hnone x hx)
          · exact hs
    · rw [ih _ s hpt, mem_applyException_of_ne hid]
      constructor
      · rintro (⟨x, hx, hxs, hx1⟩ | ⟨hno, hs⟩)
        · exact Or.inl ⟨x, by simp [hx], hxs, hx1⟩
        · refine Or.inr ⟨?_, hs⟩
          intro x hx hxs
          rcases List.mem_cons.mp hx with rfl | hx
          · exact absurd hxs hid
          · exact hno x hx hxs
      · rintro (⟨x, hx, hxs, hx1⟩ | ⟨hno, hs⟩)
        · rcases List.mem_cons.mp hx with rfl | hx
          · exact absurd hxs hid
          · exact Or.inl ⟨x, hx, hxs, hx1⟩
        · exact Or.inr ⟨fun x hx hxs => hno x (by simp [hx]) hxs, hs⟩

/-- C2 confirmed: The active service set for a query date is: every
calendar row whose weekday flag for the date's weekday is 1 and whose
`[start_date, end_date]` range contains the date, then each exception row
dated exactly that date applied in order — `exception_type = 2` discards
the id (no-op if absent), `exception_type = 1` inserts it (no-op if
present).  Under the `calendar_dates` primary key `(service_id, date)`
(at most one exception row per service and date) membership is
characterised by: an Added exception, or no Removed exception and a
calendar-base match; in particular a service with no calendar row at all is
active whenever it has an Added exception for the date. -/
theorem c2_active_service_ids (cal : List CalendarRow) (cdates : List CalendarDateRow)
    (dateStr : String) (weekday : Fin 7)
    (huniq : (cdates.filter (fun r => r.date = dateStr)).Pairwise
      (fun a b => a.service_id ≠ b.service_id)) :
    (∀ s, s ∈ calendar_base cal dateStr weekday ↔
      ∃ r ∈ cal, r.service_id = s ∧ r.weekdayFlag weekday = 1 ∧
        r.start_date ≤ dateStr ∧ dateStr ≤ r.end_date) ∧
    (∀ s, s ∈ get_active_service_ids cal cdates dateStr weekday ↔
      ((∃ r ∈ cdates, r.service_id = s ∧ r.date = dateStr ∧ r.exception_type = 1) ∨
        ((∀ r ∈ cdates, r.service_id = s → r.date = dateStr → r.exception_type ≠ 2) ∧
          s ∈ calendar_base cal dateStr weekday))) ∧
    (∀ s, (∀ r ∈ cal, r.service_id ≠ s) →
      (∃ r ∈ cdates, r.service_id = s ∧ r.date = dateStr ∧ r.exception_type = 1) →
      s ∈ get_active_service_ids cal cdates dateStr weekday) := by
  have hbase : ∀ s, s ∈ calendar_base cal dateStr weekday ↔
      ∃ r ∈ cal, r.service_id = s ∧ r.weekdayFlag weekday = 1 ∧
        r.start_date ≤ dateStr ∧ dateStr ≤ r.end_date := by
    intro s
    simp only [calendar_base, List.mem_toFinset, List.mem_map, List.mem_filter,
      calendarActiveOn, decide_eq_true_eq]
    constructor
    · rintro ⟨r, ⟨hr, ⟨hrange, hflag⟩⟩, rfl⟩
      exact ⟨r, hr, rfl, hflag, hrange⟩
    · rintro ⟨r, hr, rfl, hflag, hrange⟩
      exact ⟨r, ⟨hr, ⟨hrange, hflag⟩⟩, rfl⟩
  have hmain : ∀ s, s ∈ get_active_service_ids cal cdates dateStr weekday ↔
      ((∃ r ∈ cdates, r.service_id = s ∧ r.date = dateStr ∧ r.exception_type = 1) ∨
        ((∀ r ∈ cdates, r.service_id = s → r.date = dateStr → r.exception_type ≠ 2) ∧
          s ∈ calendar_base cal dateStr weekday)) := by
    intro s
    rw [get_active_service_ids, mem_foldl_applyException _ _ s huniq]
    constructor
    · rintro (⟨x, hx, hxs, hx1⟩ | ⟨hno, hs⟩)
      · rw [List.mem_filter] at hx
        exact Or.inl ⟨x, hx.1, hxs, by simpa using hx.2, hx1⟩
      · refine Or.inr ⟨?_, hs⟩
        intro x hx hxs hxd
        exact hno x (List.mem_filter.mpr ⟨hx, by simpa using hxd⟩) hxs
    · rintro (⟨x, hx, hxs, hxd, hx1⟩ | ⟨hno, hs⟩)
      · exact Or.inl ⟨x, List.mem_filter.mpr ⟨hx, by simpa using hxd⟩, hxs, hx1⟩
      · refine Or.inr ⟨?_, hs⟩
        intro x hx hxs
        rw [List.mem_filter] at hx
        exact hno x hx.1 hxs (by simpa using hx.2)
  refine ⟨hbase, hmain, ?_⟩
  intro s _ hadd
  exact (hmain s).mpr (Or.inl hadd)

theorem c2_active_service_ids_witness :
    (([⟨"HOLIDAY", "20250101", 1⟩] : List CalendarDateRow).filter
        (fun r => r.date = "20250101")).Pairwise (fun a b => a.service_id ≠ b.service_id) ∧
    (∀ r ∈ ([] : List CalendarRow), r.service_id ≠ "HOLIDAY") ∧
    "HOLIDAY" ∈ get_active_service_ids [] [⟨"HOLIDAY", "20250101", 1⟩] "20250101" 2 := by
  have hu : (([⟨"HOLIDAY", "20250101", 1⟩] : List CalendarDateRow).filter
      (fun r => r.date = "20250101")).Pairwise (fun a b => a.service_id ≠ b.service_id) := by
    simp
  refine ⟨hu, by simp, ?_⟩
  exact (c2_active_service_ids [] [⟨"HOLIDAY", "20250101", 1⟩] "20250101" 2 hu).2.2
    "HOLIDAY" (by simp) ⟨⟨"HOLIDAY", "20250101", 1⟩, by simp, rfl, rfl, rfl⟩

/-! ## Scheduled arrivals (`get_scheduled_arrivals`)

The remaining tables of the GTFS database, and the query-window derivation
(STEPS 1–3 of the source function).  `fmtDate` abstracts
`date_to_gtfs_format` (Python `strftime("%Y%m%d")`); `pyWeekday` is
`date.weekday()` on the date's proleptic ordinal (ordinal 1 = Monday). -/

/-- Weekday of a proleptic-Gregorian ordinal, 0 = Monday … 6 = Sunday. -/
def pyWeekday (d : Int) : Fin 7 :=
  ⟨((d - 1) % 7).toNat, by omega⟩

/-- A row of the `stops` table (the columns used by the arrivals path). -/
structure StopRow where
  stop_id : String
  stop_name : String
  stop_code : Option String
deriving DecidableEq

/-- A row of the `routes` table (the columns used by the core). -/
structure RouteRow where
  route_id : String
  route_short_name : Option String
  route_type : Int
deriving DecidableEq

/-- A row of the `trips` table (the columns used by the core). -/
structure TripRow where
  trip_id : String
  route_id : String
  service_id : String
  trip_headsign : Option String
deriving DecidableEq

/-- A row of the `stop_times` table (the columns used by the core). -/
structure StopTimeRow where
  trip_id : String
  arrival_time : String
  departure_time : String
  stop_id : String
  stop_sequence : Int
deriving DecidableEq

/-- The GTFS relational store. -/
structure GtfsDb where
  stops : List StopRow
  routes : List RouteRow
  trips : List TripRow
  stop_times : List StopTimeRow
  calendar : List CalendarRow
  calendar_dates : List CalendarDateRow
deriving DecidableEq

/-- Model of `format_gtfs_time`: 12-hour display with AM/PM and a `" (+1)"`
suffix for extended times; `none` models the `ValueError` of the parse. -/
def format_gtfs_time (time_str : String) : Option String :=
  (parse_gtfs_time time_str).map fun x =>
    let p := if 24 ≤ x.1 then (x.1 - 24, " (+1)") else (x.1, "")
    let dp := if p.1 = 0 then ((12 : Int), "AM")
      else if p.1 = 12 then ((12 : Int), "PM")
      else if 12 < p.1 then (p.1 - 12, "PM")
      else (p.1, "AM")
    ⟨intChars dp.1 ++ (':' :: pad2 x.2.1) ++ (' ' :: dp.2.data) ++ p.2.data⟩

/-- The `StopInfo` response model. -/
structure StopInfo where
  stop_id : String
  stop_name : String
  stop_code : Option String
deriving DecidableEq

/-- The `ScheduledArrival` response model. -/
structure ScheduledArrival where
  trip_id : String
  route_id : String
  route_short_name : Option String
  route_type : Int
  trip_headsign : Option String
  arrival_time : String
  arrival_time_formatted : String
  minutes_until : Option Int
deriving DecidableEq

/-- The `GetScheduledArrivalsResponse` model (`service_date` kept as the
date ordinal rather than its `isoformat()` string). -/
structure GetScheduledArrivalsResponse where
  stop : StopInfo
  arrivals : List ScheduledArrival
  service_date : Int
  query_time : String
  count : Nat
deriving DecidableEq

/-- STEP 3 of `get_scheduled_arrivals`: only in extended mode, an inverted
window whose end is not already extended gets its end extended. -/
def fix_inverted_window (use_extended_times : Bool) (start_time end_time : String) : String :=
  if use_extended_times then
    match safe_gtfs_time_to_seconds start_time, safe_gtfs_time_to_seconds end_time with
    | some start_seconds, some end_seconds =>
      if end_seconds < start_seconds ∧ is_extended_time end_time = false then
        convert_to_extended_time end_time
      else end_time
    | _, _ => end_time
  else end_time

/-- The window derivation of `get_scheduled_arrivals` (STEPS 1–3): service
date, effective start/end times and the extended-mode flag. -/
structure ArrivalsWindow where
  service_date : Int
  start_time : String
  end_time : String
  use_extended_times : Bool
deriving DecidableEq

/-- STEPS 1–3 of `get_scheduled_arrivals`: determine the service date and
the effective query window from `now` and the optional caller times. -/
def arrivals_window (now : PyDateTime) (start_time? end_time? : Option String) :
    ArrivalsWindow :=
  let step1 : Int × String × Bool :=
    match start_time? with
    | some st =>
      if is_extended_time st then (now.day - 1, st, true)
      else if is_time_in_late_night_range st then
        if (get_gtfs_service_context now).2.2 then
          (now.day - 1, convert_to_extended_time st, true)
        else (now.day, st, false)
      else (now.day, st, false)
    | none => get_gtfs_service_context now
  let et :=
    match end_time? with
    | none => "28:00:00"
    | some et0 =>
      if step1.2.2 && is_time_in_late_night_range et0 then convert_to_extended_time et0
      else et0
  ⟨step1.1, step1.2.1, fix_inverted_window step1.2.2 step1.2.1 et, step1.2.2⟩

/-- A row of the arrivals join (`stop_times JOIN trips JOIN routes`). -/
structure ArrivalJoinRow where
  trip_id : String
  arrival_time : String
  route_id : String
  trip_headsign : Option String
  route_short_name : Option String
  route_type : Int
deriving DecidableEq

/-- The `WHERE` clause of the arrivals query (SQL string comparison on
`arrival_time`). -/
def arrivalRowOk (stop_id : String) (active : Finset String)
    (start_time end_time : String) (route_id? : Option String)
    (x : StopTimeRow × TripRow × RouteRow) : Bool :=
  decide (x.1.stop_id = stop_id) && decide (x.2.1.service_id ∈ active) &&
    decide (start_time ≤ x.1.arrival_time) && decide (x.1.arrival_time ≤ end_time) &&
    (match route_id? with | none => true | some rid => decide (x.2.1.route_id = rid))

/-- The arrivals query: join `stop_times`/`trips`/`routes`, filter, order by
`arrival_time` and apply `LIMIT`. -/
def query_scheduled_arrivals (db : GtfsDb) (stop_id : String) (active : Finset String)
    (start_time end_time : String) (route_id? : Option String) (limit : Nat) :
    List ArrivalJoinRow :=
  let joined := db.stop_times.flatMap fun st =>
    (db.trips.filter fun t => t.trip_id = st.trip_id).flatMap fun t =>
      (db.routes.filter fun r => r.route_id = t.route_id).map fun r => (st, t, r)
  let rows := joined.filter (arrivalRowOk stop_id active start_time end_time route_id?)
  let mapped := rows.map fun x =>
    (⟨x.1.trip_id, x.1.arrival_time, x.2.1.route_id, x.2.1.trip_headsign,
      x.2.2.route_short_name, x.2.2.route_type⟩ : ArrivalJoinRow)
  (List.insertionSort (fun a b => a.arrival_time ≤ b.arrival_time) mapped).take limit

/-- Build one `ScheduledArrival` from a query row (`.error` models the
`ValueError` raised by `format_gtfs_time`/`calculate_minutes_until` on a
malformed stored time). -/
def build_scheduled_arrival (query_time : String) (row : ArrivalJoinRow) :
    Except String ScheduledArrival :=
  match format_gtfs_time row.arrival_time with
  | none => .error ("Invalid GTFS time format: " ++ row.arrival_time)
  | some fmt =>
    match calculate_minutes_until row.arrival_time query_time with
    | none => .error ("Invalid GTFS time format: " ++ query_time)
    | some mins =>
      .ok ⟨row.trip_id, row.route_id, row.route_short_name, row.route_type,
        row.trip_headsign, row.arrival_time, fmt, some mins⟩

/-- Model of `get_scheduled_arrivals`: derive the window, look up the stop
(`ValueError` if absent), compute active services (empty ⇒ empty success
response), then query and build the arrivals. -/
def get_scheduled_arrivals (db : GtfsDb) (fmtDate : Int → String) (now : PyDateTime)
    (stop_id : String) (route_id? : Option String)
    (start_time? end_time? : Option String) (limit : Nat) :
    Except String GetScheduledArrivalsResponse :=
  let w := arrivals_window now start_time? end_time?
  match db.stops.find? (fun r => r.stop_id = stop_id) with
  | none => .error ("Stop not found: " ++ stop_id)
  | some stop_row =>
    let stop_info : StopInfo := ⟨stop_row.stop_id, stop_row.stop_name, stop_row.stop_code⟩
    let active := get_active_service_ids db.calendar db.calendar_dates
      (fmtDate w.service_date) (pyWeekday w.service_date)
    if active = ∅ then
      .ok ⟨stop_info, [], w.service_date, w.start_time, 0⟩
    else
      let rows := query_scheduled_arrivals db stop_id active w.start_time w.end_time
        route_id? limit
      match rows.mapM (build_scheduled_arrival w.start_time) with
      | .error e => .error e
      | .ok arrivals => .ok ⟨stop_info, arrivals, w.service_date, w.start_time, arrivals.length⟩

/-- C6 confirmed: in extended mode, an inverted window (`start > end` in
seconds) whose end is not already extended gets `end` replaced by
`end + 24h` (exactly `convert_to_extended_time end`, whose seconds value is
the old value plus 86400); in non-extended mode the window is left
unchanged, and an inverted window makes the arrivals query return zero
rows (the SQL comparison on `arrival_time` being string order). -/
theorem c6_inverted_window_correction (start_time end_time : String) :
    (∀ a b, safe_gtfs_time_to_seconds start_time = some a →
      safe_gtfs_time_to_seconds end_time = some b → b < a →
      is_extended_time end_time = false →
      fix_inverted_window true start_time end_time = convert_to_extended_time end_time ∧
      gtfs_time_to_seconds (fix_inverted_window true start_time end_time) =
        some (b + 86400)) ∧
    fix_inverted_window false start_time end_time = end_time ∧
    (∀ (db : GtfsDb) (sid : String) (active : Finset String) (rid? : Option String)
      (lim : Nat), ¬(start_time ≤ end_time) →
      query_scheduled_arrivals db sid active start_time end_time rid? lim = []) := by
  refine ⟨?_, rfl, ?_⟩
  · intro a b ha hb hlt hext
    have hfix : fix_inverted_window true start_time end_time =
        convert_to_extended_time end_time := by
      unfold fix_inverted_window
      rw [ha, hb]
      show (if b < a ∧ is_extended_time end_time = false then
          convert_to_extended_time end_time else end_time) =
        convert_to_extended_time end_time
      rw [if_pos ⟨hlt, hext⟩]
    rcases hp : safe_parse_gtfs_time end_time with _ | ⟨h, m, s⟩
    · exfalso
      have : safe_gtfs_time_to_seconds end_time = none := by
        unfold safe_gtfs_time_to_seconds gtfs_time_to_seconds
        rw [show parse_gtfs_time end_time = none from hp]
        rfl
      rw [this] at hb
      exact Option.noConfusion hb
    · have hb' : b = h * 3600 + m * 60 + s := by
        unfold safe_gtfs_time_to_seconds gtfs_time_to_seconds at hb
        rw [show parse_gtfs_time end_time = some (h, m, s) from hp] at hb
        simpa using hb.symm
      have h24 : h < 24 := by
        unfold is_extended_time at hext
        rw [hp] at hext
        simpa using hext
      refine ⟨hfix, ?_⟩
      rw [hfix, convert_of_parse_some hp, if_pos h24, toSeconds_formatHMS]
      congr 1
      omega
  · intro db sid active rid? lim hinv
    have hfil : ∀ (l : List (StopTimeRow × TripRow × RouteRow)),
        l.filter (arrivalRowOk sid active start_time end_time rid?) = [] := by
      intro l
      rw [List.filter_eq_nil_iff]
      intro x _ hok
      unfold arrivalRowOk at hok
      simp only [Bool.and_eq_true, decide_eq_true_eq] at hok
      exact hinv (le_trans hok.1.1.2 hok.1.2)
    simp only [query_scheduled_arrivals, hfil, List.map_nil]
    simp

theorem c6_inverted_window_correction_witness :
    (safe_gtfs_time_to_seconds "25:06:00" = some 90360 ∧
      safe_gtfs_time_to_seconds "05:00:00" = some 18000 ∧
      (18000 : Int) < 90360 ∧ is_extended_time "05:00:00" = false ∧
      fix_inverted_window true "25:06:00" "05:00:00" =
        convert_to_extended_time "05:00:00" ∧
      convert_to_extended_time "05:00:00" = "29:00:00") ∧
    (¬("25:06:00" ≤ "05:00:00") ∧
      query_scheduled_arrivals ⟨[], [], [], [⟨"T1", "12:00:00", "12:00:00", "S1", 1⟩], [], []⟩
        "S1" {"X"} "25:06:00" "05:00:00" none 20 = []) := by
  refine ⟨⟨by decide, by decide, by decide, by decide, ?_, by decide⟩,
    ⟨by rw [String.le_iff_toList_le]; decide, ?_⟩⟩
  · exact ((c6_inverted_window_correction "25:06:00" "05:00:00").1 90360 18000
      (by decide) (by decide) (by decide) (by decide)).1
  · exact (c6_inverted_window_correction "25:06:00" "05:00:00").2.2
      ⟨[], [], [], [⟨"T1", "12:00:00", "12:00:00", "S1", 1⟩], [], []⟩
      "S1" {"X"} none 20 (by rw [String.le_iff_toList_le]; decide)

/-- C10 confirmed: `get_scheduled_arrivals` raises `ValueError`
(`"Stop not found: …"`) when the stop id is absent from `stops`, whereas a
date with no active services returns a normal response with an empty
arrivals list and count 0. -/
theorem c10_unknown_stop_vs_empty_schedule (db : GtfsDb) (fmtDate : Int → String)
    (now : PyDateTime) (stop_id : String) (route_id? : Option String)
    (start_time? end_time? : Option String) (limit : Nat) :
    (db.stops.find? (fun r => r.stop_id = stop_id) = none →
      get_scheduled_arrivals db fmtDate now stop_id route_id? start_time? end_time? limit =
        .error ("Stop not found: " ++ stop_id)) ∧
    (∀ stop_row, db.stops.find? (fun r => r.stop_id = stop_id) = some stop_row →
      get_active_service_ids db.calendar db.calendar_dates
        (fmtDate (arrivals_window now start_time? end_time?).service_date)
        (pyWeekday (arrivals_window now start_time? end_time?).service_date) = ∅ →
      get_scheduled_arrivals db fmtDate now stop_id route_id? start_time? end_time? limit =
        .ok ⟨⟨stop_row.stop_id, stop_row.stop_name, stop_row.stop_code⟩, [],
          (arrivals_window now start_time? end_time?).service_date,
          (arrivals_window now start_time? end_time?).start_time, 0⟩) := by
  constructor
  · intro h
    simp only [get_scheduled_arrivals, h]
  · intro stop_row h hempty
    simp only [get_scheduled_arrivals, h, hempty, eq_self_iff_true, if_true]

theorem c10_unknown_stop_vs_empty_schedule_witness :
    ((⟨[], [], [], [], [], []⟩ : GtfsDb).stops.find? (fun r => r.stop_id = "S9") = none ∧
      get_scheduled_arrivals ⟨[], [], [], [], [], []⟩ (fun _ => "20250101")
        ⟨739000, 12, 0, 0⟩ "S9" none none none 20 = .error ("Stop not found: " ++ "S9")) ∧
    ((⟨[⟨"S1", "Main St", none⟩], [], [], [], [], []⟩ : GtfsDb).stops.find?
        (fun r => r.stop_id = "S1") = some ⟨"S1", "Main St", none⟩ ∧
      get_scheduled_arrivals ⟨[⟨"S1", "Main St", none⟩], [], [], [], [], []⟩
        (fun _ => "20250101") ⟨739000, 12, 0, 0⟩ "S1" none none none 20 =
        .ok ⟨⟨"S1", "Main St", none⟩, [],
          (arrivals_window ⟨739000, 12, 0, 0⟩ none none).service_date,
          (arrivals_window ⟨739000, 12, 0, 0⟩ none none).start_time, 0⟩) := by
  constructor
  · exact ⟨by decide,
      (c10_unknown_stop_vs_empty_schedule ⟨[], [], [], [], [], []⟩ (fun _ => "20250101")
        ⟨739000, 12, 0, 0⟩ "S9" none none none 20).1 (by decide)⟩
  · exact ⟨by decide,
      (c10_unknown_stop_vs_empty_schedule ⟨[⟨"S1", "Main St", none⟩], [], [], [], [], []⟩
        (fun _ => "20250101") ⟨739000, 12, 0, 0⟩ "S1" none none none 20).2
        ⟨"S1", "Main St", none⟩ (by decide) (by decide)⟩

/-! ## Trip planner orchestrator (`plan_trip`, `trip_planner.py`)

The external fuzzy resolver is a black box: it is modelled as a function
`String → Except String StopResolutionResponse` (`.error` = the exception
caught by `_resolve_stop_for_planning`'s `try/except`).  The two finders
are likewise kept abstract — `plan_trip` passes them the resolved stop
ids, the departure time, the service date and the limit, and only
concatenates/sorts/truncates their results. -/

/-- The resolver's best match (`StopMatch`: id, name, confidence value). -/
structure StopMatch where
  stop_id : String
  stop_name : String
  confidence : String
deriving DecidableEq

/-- The resolver's response (`StopResolutionResponse`, the fields used by
the planner). -/
structure StopResolutionResponse where
  best_match : Option StopMatch
  resolved : Bool
deriving DecidableEq

/-- The `StopResolutionInfo` diagnostic record. -/
structure StopResolutionInfo where
  query : String
  resolved_stop_id : Option String
  resolved_stop_name : Option String
  confidence : Option String
  resolved : Bool
  error : Option String
deriving DecidableEq

/-- Model of `_resolve_stop_for_planning`: wrap the resolver outcome into a
`StopResolutionInfo`; a raised exception (`.error e`) or an absent best
match yields `resolved = false` with an error message, never an
exception. -/
def resolve_stop_for_planning (query : String)
    (result : Except String StopResolutionResponse) : StopResolutionInfo :=
  match result with
  | .error e => ⟨query, none, none, none, false, some e⟩
  | .ok r =>
    match r.best_match with
    | some bm =>
      ⟨query, some bm.stop_id, some bm.stop_name, some bm.confidence, r.resolved, none⟩
    | none => ⟨query, none, none, none, false, some "No matching stop found"⟩

/-- The `Itinerary` response model (the planner treats itineraries
opaquely: only `total_duration_minutes` is consulted, for ranking). -/
structure Itinerary where
  departure_time : String
  arrival_time : String
  total_duration_minutes : Int
  num_transfers : Int
deriving DecidableEq

/-- The `PlanTripResponse` model (`service_date`/`departure_date` kept as
date ordinals rather than `isoformat()` strings). -/
structure PlanTripResponse where
  origin_resolution : StopResolutionInfo
  destination_resolution : StopResolutionInfo
  itineraries : List Itinerary
  service_date : Int
  departure_date : Int
  query_time : String
  count : Nat
  success : Bool
  error : Option String
deriving DecidableEq

/-- The signature of the two finders as `plan_trip` calls them:
origin stop id, destination stop id, departure time, service date,
limit. -/
def ItineraryFinder : Type :=
  Option String → Option String → String → Int → Nat → List Itinerary

/-- Model of `plan_trip`: resolve both endpoints (early return on
failure), default the departure time to "now", run both finders with
`service_date = now.date()`, concatenate, stable-sort by total duration
(Python's `list.sort` is a stable sort, as is `List.insertionSort`),
truncate to `limit`. -/
def plan_trip (now : PyDateTime)
    (resolver : String → Except String StopResolutionResponse)
    (direct_finder transfer_finder : ItineraryFinder)
    (origin destination : String)
    (departure_time? : Option String) (limit : Nat) : PlanTripResponse :=
  let service_date := now.day
  let departure_time := departure_time?.getD (time_to_gtfs_format now)
  let origin_res := resolve_stop_for_planning origin (resolver origin)
  let dest_res := resolve_stop_for_planning destination (resolver destination)
  if origin_res.resolved = false ∨ dest_res.resolved = false then
    ⟨origin_res, dest_res, [], service_date, now.day, departure_time, 0, false,
      some "Could not resolve origin or destination stop"⟩
  else
    let direct_itineraries := direct_finder origin_res.resolved_stop_id
      dest_res.resolved_stop_id departure_time service_date limit
    let transfer_itineraries := transfer_finder origin_res.resolved_stop_id
      dest_res.resolved_stop_id departure_time service_date limit
    let all_itineraries := List.insertionSort
      (fun a b => a.total_duration_minutes ≤ b.total_duration_minutes)
      (direct_itineraries ++ transfer_itineraries)
    let itineraries := all_itineraries.take limit
    ⟨origin_res, dest_res, itineraries, service_date, now.day, departure_time,
      itineraries.length, decide (0 < itineraries.length),
      if itineraries = [] then some "No routes found" else none⟩

/-- C5 confirmed: `plan_trip` always uses the current wall-clock calendar
date as the service date — including between midnight and 4 AM, where the
arrivals path would shift to the previous service day — and passes exactly
that date to both finders; a missing `departure_time` defaults to the
current wall-clock time formatted `HH:MM:SS`. -/
theorem c5_plan_trip_uses_wall_clock_date (now : PyDateTime)
    (resolver : String → Except String StopResolutionResponse)
    (direct_finder transfer_finder : ItineraryFinder)
    (origin destination : String) (departure_time? : Option String) (limit : Nat) :
    (plan_trip now resolver direct_finder transfer_finder origin destination
        departure_time? limit).service_date = now.day ∧
    (plan_trip now resolver direct_finder transfer_finder origin destination
        departure_time? limit).departure_date = now.day ∧
    (departure_time? = none →
      (plan_trip now resolver direct_finder transfer_finder origin destination
          departure_time? limit).query_time = time_to_gtfs_format now) ∧
    ((resolve_stop_for_planning origin (resolver origin)).resolved = true →
      (resolve_stop_for_planning destination (resolver destination)).resolved = true →
      (plan_trip now resolver direct_finder transfer_finder origin destination
          departure_time? limit).itineraries =
        (List.insertionSort (fun a b => a.total_duration_minutes ≤ b.total_duration_minutes)
          (direct_finder (resolve_stop_for_planning origin (resolver origin)).resolved_stop_id
              (resolve_stop_for_planning destination (resolver destination)).resolved_stop_id
              (departure_time?.getD (time_to_gtfs_format now)) now.day limit ++
            transfer_finder
              (resolve_stop_for_planning origin (resolver origin)).resolved_stop_id
              (resolve_stop_for_planning destination (resolver destination)).resolved_stop_id
              (departure_time?.getD (time_to_gtfs_format now)) now.day limit)).take limit) := by
  by_cases hfail : (resolve_stop_for_planning origin (resolver origin)).resolved = false ∨
      (resolve_stop_for_planning destination (resolver destination)).resolved = false
  · refine ⟨?_, ?_, ?_, ?_⟩
    · simp only [plan_trip, if_pos hfail]
    · simp only [plan_trip, if_pos hfail]
    · intro hdep
      simp only [plan_trip, if_pos hfail, hdep, Option.getD_none]
    · intro ho hd
      rcases hfail with hfail | hfail
      · rw [ho] at hfail; exact Bool.noConfusion hfail
      · rw [hd] at hfail; exact Bool.noConfusion hfail
  · refine ⟨?_, ?_, ?_, ?_⟩
    · simp only [plan_trip, if_neg hfail]
    · simp only [plan_trip, if_neg hfail]
    · intro hdep
      simp only [plan_trip, if_neg hfail, hdep, Option.getD_none]
    · intro _ _
      simp only [plan_trip, if_neg hfail]

theorem c5_plan_trip_uses_wall_clock_date_witness :
    ((some "09:00:00" : Option String) = none →
      (plan_trip ⟨739000, 1, 30, 0⟩ (fun q => .ok ⟨some ⟨q, q, "exact"⟩, true⟩)
          (fun _ _ _ _ _ => []) (fun _ _ _ _ _ => []) "A" "B" (some "09:00:00") 3).query_time =
        time_to_gtfs_format ⟨739000, 1, 30, 0⟩) ∧
    (plan_trip ⟨739000, 1, 30, 0⟩ (fun q => .ok ⟨some ⟨q, q, "exact"⟩, true⟩)
        (fun _ _ _ _ _ => []) (fun _ _ _ _ _ => []) "A" "B" (some "09:00:00") 3).service_date =
      (⟨739000, 1, 30, 0⟩ : PyDateTime).day :=
  ⟨((c5_plan_trip_uses_wall_clock_date ⟨739000, 1, 30, 0⟩
      (fun q => .ok ⟨some ⟨q, q, "exact"⟩, true⟩) (fun _ _ _ _ _ => [])
      (fun _ _ _ _ _ => []) "A" "B" (some "09:00:00") 3).2.2.1),
    ((c5_plan_trip_uses_wall_clock_date ⟨739000, 1, 30, 0⟩
      (fun q => .ok ⟨some ⟨q, q, "exact"⟩, true⟩) (fun _ _ _ _ _ => [])
      (fun _ _ _ _ _ => []) "A" "B" (some "09:00:00") 3).1)⟩

/-- C7 confirmed: when both endpoints resolve, the returned itinerary list
is the concatenation of the direct and transfer finder results, stable-
sorted by `total_duration_minutes` in non-decreasing order and truncated to
`limit`; `success` is true exactly when this list is nonempty, and the
error field is `"No routes found"` exactly when it is empty. -/
theorem c7_plan_trip_ranking (now : PyDateTime)
    (resolver : String → Except String StopResolutionResponse)
    (direct_finder transfer_finder : ItineraryFinder)
    (origin destination : String) (departure_time? : Option String) (limit : Nat)
    (ho : (resolve_stop_for_planning origin (resolver origin)).resolved = true)
    (hd : (resolve_stop_for_planning destination (resolver destination)).resolved = true) :
    (plan_trip now resolver direct_finder transfer_finder origin destination
        departure_time? limit).itineraries =
      (List.insertionSort (fun a b => a.total_duration_minutes ≤ b.total_duration_minutes)
        (direct_finder (resolve_stop_for_planning origin (resolver origin)).resolved_stop_id
            (resolve_stop_for_planning destination (resolver destination)).resolved_stop_id
            (departure_time?.getD (time_to_gtfs_format now)) now.day limit ++
          transfer_finder
            (resolve_stop_for_planning origin (resolver origin)).resolved_stop_id
            (resolve_stop_for_planning destination (resolver destination)).resolved_stop_id
            (departure_time?.getD (time_to_gtfs_format now)) now.day limit)).take limit ∧
    (plan_trip now resolver direct_finder transfer_finder origin destination
        departure_time? limit).itineraries.Pairwise
      (fun a b => a.total_duration_minutes ≤ b.total_duration_minutes) ∧
    ((plan_trip now resolver direct_finder transfer_finder origin destination
        departure_time? limit).success = true ↔
      (plan_trip now resolver direct_finder transfer_finder origin destination
        departure_time? limit).itineraries ≠ []) ∧
    ((plan_trip now resolver direct_finder transfer_finder origin destination
        departure_time? limit).itineraries = [] →
      (plan_trip now resolver direct_finder transfer_finder origin destination
        departure_time? limit).error = some "No routes found") ∧
    ((plan_trip now resolver direct_finder transfer_finder origin destination
        departure_time? limit).itineraries ≠ [] →
      (plan_trip now resolver direct_finder transfer_finder origin destination
        departure_time? limit).error = none) := by
  have hfail : ¬((resolve_stop_for_planning origin (resolver origin)).resolved = false ∨
      (resolve_stop_for_planning destination (resolver destination)).resolved = false) := by
    rw [ho, hd]; simp
  haveI : IsTotal Itinerary
      (fun a b => a.total_duration_minutes ≤ b.total_duration_minutes) :=
    ⟨fun a b => le_total _ _⟩
  haveI : IsTrans Itinerary
      (fun a b => a.total_duration_minutes ≤ b.total_duration_minutes) :=
    ⟨fun _ _ _ hab hbc => le_trans hab hbc⟩
  refine ⟨?_, ?_, ?_, ?_, ?_⟩
  · simp only [plan_trip, if_neg hfail]
  · simp only [plan_trip, if_neg hfail]
    exact List.Pairwise.sublist (List.take_sublist _ _) (List.sorted_insertionSort _ _)
  · simp only [plan_trip, if_neg hfail, decide_eq_true_eq]
    exact List.length_pos
  · intro hempty
    simp only [plan_trip, if_neg hfail] at hempty ⊢
    rw [if_pos hempty]
  · intro hne
    simp only [plan_trip, if_neg hfail] at hne ⊢
    rw [if_neg hne]

theorem c7_plan_trip_ranking_witness :
    ((resolve_stop_for_planning "A"
        ((fun q => (.ok ⟨some ⟨q, q, "exact"⟩, true⟩ :
          Except String StopResolutionResponse)) "A")).resolved = true ∧
      (resolve_stop_for_planning "B"
        ((fun q => (.ok ⟨some ⟨q, q, "exact"⟩, true⟩ :
          Except String StopResolutionResponse)) "B")).resolved = true) ∧
    (plan_trip ⟨739000, 9, 0, 0⟩ (fun q => .ok ⟨some ⟨q, q, "exact"⟩, true⟩)
        (fun _ _ _ _ _ => [⟨"09:00:00", "09:40:00", 40, 0⟩])
        (fun _ _ _ _ _ => [⟨"09:05:00", "09:30:00", 25, 1⟩]) "A" "B"
        (some "09:00:00") 3).itineraries.Pairwise
      (fun a b => a.total_duration_minutes ≤ b.total_duration_minutes) ∧
    (plan_trip ⟨739000, 9, 0, 0⟩ (fun q => .ok ⟨some ⟨q, q, "exact"⟩, true⟩)
        (fun _ _ _ _ _ => [⟨"09:00:00", "09:40:00", 40, 0⟩])
        (fun _ _ _ _ _ => [⟨"09:05:00", "09:30:00", 25, 1⟩]) "A" "B"
        (some "09:00:00") 3).itineraries =
      [⟨"09:05:00", "09:30:00", 25, 1⟩, ⟨"09:00:00", "09:40:00", 40, 0⟩] := by
  refine ⟨⟨rfl, rfl⟩, ?_, by decide⟩
  exact (c7_plan_trip_ranking ⟨739000, 9, 0, 0⟩
    (fun q => .ok ⟨some ⟨q, q, "exact"⟩, true⟩)
    (fun _ _ _ _ _ => [⟨"09:00:00", "09:40:00", 40, 0⟩])
    (fun _ _ _ _ _ => [⟨"09:05:00", "09:30:00", 25, 1⟩]) "A" "B"
    (some "09:00:00") 3 rfl rfl).2.1

/-- C8 confirmed: resolver failures are captured per side — a raised
exception becomes `resolved = false` with the exception text, an empty
match set becomes `resolved = false` with `"No matching stop found"` — and
if either side is unresolved, `plan_trip` returns immediately with
`success = false`, an empty itinerary list and a descriptive error; the
response is a fixed record that does not depend on the finders, so neither
finder is run. -/
theorem c8_resolution_failure_handling (now : PyDateTime)
    (resolver : String → Except String StopResolutionResponse)
    (direct_finder transfer_finder : ItineraryFinder)
    (origin destination : String) (departure_time? : Option String) (limit : Nat) :
    (∀ q e, resolver q = .error e →
      resolve_stop_for_planning q (resolver q) = ⟨q, none, none, none, false, some e⟩) ∧
    (∀ q r, resolver q = .ok r → r.best_match = none →
      resolve_stop_for_planning q (resolver q) =
        ⟨q, none, none, none, false, some "No matching stop found"⟩) ∧
    ((resolve_stop_for_planning origin (resolver origin)).resolved = false ∨
      (resolve_stop_for_planning destination (resolver destination)).resolved = false →
      plan_trip now resolver direct_finder transfer_finder origin destination
          departure_time? limit =
        ⟨resolve_stop_for_planning origin (resolver origin),
          resolve_stop_for_planning destination (resolver destination),
          [], now.day, now.day, departure_time?.getD (time_to_gtfs_format now), 0, false,
          some "Could not resolve origin or destination stop"⟩ ∧
      ∀ (direct' transfer' : ItineraryFinder),
        plan_trip now resolver direct_finder transfer_finder origin destination
            departure_time? limit =
          plan_trip now resolver direct' transfer' origin destination
            departure_time? limit) := by
  refine ⟨?_, ?_, ?_⟩
  · intro q e he
    unfold resolve_stop_for_planning
    rw [he]
  · intro q r hr hbm
    unfold resolve_stop_for_planning
    rw [hr]
    simp only [hbm]
  · intro hfail
    constructor
    · simp only [plan_trip, if_pos hfail]
    · intro direct' transfer'
      simp only [plan_trip, if_pos hfail]

theorem c8_resolution_failure_handling_witness :
    ((fun q => (.error ("boom " ++ q) : Except String StopResolutionResponse)) "A" =
        .error ("boom " ++ "A") ∧
      resolve_stop_for_planning "A"
          ((fun q => (.error ("boom " ++ q) : Except String StopResolutionResponse)) "A") =
        ⟨"A", none, none, none, false, some ("boom " ++ "A")⟩) ∧
    ((resolve_stop_for_planning "A"
        ((fun q => (.error ("boom " ++ q) : Except String StopResolutionResponse)) "A")).resolved
          = false ∨
      (resolve_stop_for_planning "B"
        ((fun q => (.error ("boom " ++ q) : Except String StopResolutionResponse)) "B")).resolved
          = false) ∧
    plan_trip ⟨739000, 9, 0, 0⟩ (fun q => .error ("boom " ++ q))
        (fun _ _ _ _ _ => [⟨"x", "y", 1, 0⟩]) (fun _ _ _ _ _ => []) "A" "B" none 3 =
      ⟨resolve_stop_for_planning "A" (.error ("boom " ++ "A")),
        resolve_stop_for_planning "B" (.error ("boom " ++ "B")),
        [], 739000, 739000, time_to_gtfs_format ⟨739000, 9, 0, 0⟩, 0, false,
        some "Could not resolve origin or destination stop"⟩ := by
  refine ⟨⟨rfl, ?_⟩, Or.inl rfl, ?_⟩
  · exact (c8_resolution_failure_handling ⟨739000, 9, 0, 0⟩ (fun q => .error ("boom " ++ q))
      (fun _ _ _ _ _ => [⟨"x", "y", 1, 0⟩]) (fun _ _ _ _ _ => []) "A" "B" none 3).1
      "A" ("boom " ++ "A") rfl
  · exact ((c8_resolution_failure_handling ⟨739000, 9, 0, 0⟩ (fun q => .error ("boom " ++ q))
      (fun _ _ _ _ _ => [⟨"x", "y", 1, 0⟩]) (fun _ _ _ _ _ => []) "A" "B" none 3).2.2
      (Or.inl rfl)).1

/-! ## Transfer-point matching (`_find_transfer_points`, `trip_planner.py`)

The three-strategy matcher is embedded as a pure function.  The per-request
location cache is semantically transparent, so stop locations are a
function `String → Option StopLocation` (the result of
`_get_stop_location`); the floating-point haversine distance is an
arbitrary parameter `hav` (ℚ-valued) — no verified claim depends on its
values.  Python's nested loops with `continue` become structural
recursions; a `gtfs_time_to_seconds` failure (`ValueError`) aborts the
whole computation (`none`), exactly as the exception would.  Iteration
order over Python sets is modelled as first-occurrence order
(`List.dedup` / filtered lists); the claims proved here are
order-insensitive. -/

/-- Constant `MIN_TRANSFER_TIME_MINUTES = 3`. -/
def MIN_TRANSFER_TIME_MINUTES : Int := 3

/-- Constant `MAX_TRANSFER_TIME_MINUTES = 30`. -/
def MAX_TRANSFER_TIME_MINUTES : Int := 30

/-- Constant `MAX_WALKING_DISTANCE_METERS = 400`. -/
def MAX_WALKING_DISTANCE_METERS : ℚ := 400

/-- The `OutboundSegment` dataclass. -/
structure OutboundSegment where
  trip_id : String
  route_id : String
  route_short_name : Option String
  route_type : Int
  trip_headsign : Option String
  origin_departure : String
  origin_seq : Int
  xfer_stop_id : String
  xfer_arrival : String
  xfer_seq : Int
deriving DecidableEq

/-- The `InboundSegment` dataclass. -/
structure InboundSegment where
  trip_id : String
  route_id : String
  route_short_name : Option String
  route_type : Int
  trip_headsign : Option String
  xfer_stop_id : String
  xfer_departure : String
  xfer_seq : Int
  dest_arrival : String
  dest_seq : Int
deriving DecidableEq

/-- The `TransferPoint` dataclass. -/
structure TransferPoint where
  outbound : OutboundSegment
  inbound : InboundSegment
  wait_minutes : Int
  walk_meters : ℚ
  walk_minutes : Int
deriving DecidableEq

/-- The result of `_get_stop_location` (lat/lon/parent_station). -/
structure StopLocation where
  lat : ℚ
  lon : ℚ
  parent_station : Option String
deriving DecidableEq

/-- Python `int(q)` on a rational: truncation toward zero. -/
def pyIntTrunc (q : ℚ) : Int := Int.tdiv q.num q.den

/-- Python truthiness of the `parent_station` value (`None` and `""` are
falsy). -/
def truthyParent : Option String → Bool
  | none => false
  | some s => s ≠ ""

/-- The `inbound_by_stop` dictionary lookup
(`inbound_by_stop.get(stop, [])`): inbound segments at a stop, in input
order. -/
def inboundAt (ins : List InboundSegment) (sid : String) : List InboundSegment :=
  ins.filter (fun i => i.xfer_stop_id = sid)

/-- Membership of a stop in the `outbound_parent_stations[parent]` list:
its location exists with a truthy `parent_station` equal to `parent`. -/
def hasParentStation (loc : String → Option StopLocation) (sid parent : String) : Bool :=
  match loc sid with
  | none => false
  | some l => truthyParent l.parent_station && decide (l.parent_station = some parent)

/-- Strategy 1, inner loop: inbound segments at the shared stop; skip
same-route pairs, keep waits within `[MIN, MAX]` minutes. -/
def same_stop_inner (o : OutboundSegment) (arrival_seconds : Int) :
    List InboundSegment → Option (List TransferPoint)
  | [] => some []
  | i :: rest =>
    if o.route_id = i.route_id then same_stop_inner o arrival_seconds rest
    else
      match gtfs_time_to_seconds i.xfer_departure with
      | none => none
      | some departure_seconds =>
        let wait_minutes := Int.fdiv (departure_seconds - arrival_seconds) 60
        match same_stop_inner o arrival_seconds rest with
        | none => none
        | some tail =>
          some (if MIN_TRANSFER_TIME_MINUTES ≤ wait_minutes ∧
              wait_minutes ≤ MAX_TRANSFER_TIME_MINUTES then
            ⟨o, i, wait_minutes, 0, 0⟩ :: tail else tail)

/-- Strategy 1, outer loop: outbound segments whose transfer stop is in
`common_stops`. -/
def same_stop_outer (ins : List InboundSegment) (common_stops : List String) :
    List OutboundSegment → Option (List TransferPoint)
  | [] => some []
  | o :: rest =>
    if o.xfer_stop_id ∈ common_stops then
      match gtfs_time_to_seconds o.xfer_arrival with
      | none => none
      | some arrival_seconds =>
        match same_stop_inner o arrival_seconds (inboundAt ins o.xfer_stop_id) with
        | none => none
        | some here =>
          match same_stop_outer ins common_stops rest with
          | none => none
          | some tail => some (here ++ tail)
    else same_stop_outer ins common_stops rest

/-- The mutable state of strategy 2: the transfer-point list plus the
`parent_station_matched_outbound` / `..._inbound` sets. -/
structure S2State where
  tps : List TransferPoint
  matched_outbound : List String
  matched_inbound : List String
deriving DecidableEq

/-- Strategy 2, innermost loop: inbound segments at `in_stop`, with the
2-minute inter-platform buffer already added to `eff_arrival`. -/
def s2_in_segs (o : OutboundSegment) (eff_arrival : Int) (out_stop in_stop : String) :
    List InboundSegment → S2State → Option S2State
  | [], st => some st
  | i :: rest, st =>
    if o.route_id = i.route_id then s2_in_segs o eff_arrival out_stop in_stop rest st
    else
      match gtfs_time_to_seconds i.xfer_departure with
      | none => none
      | some departure_seconds =>
        let effective_wait := Int.fdiv (departure_seconds - eff_arrival) 60
        let st' :=
          if MIN_TRANSFER_TIME_MINUTES ≤ effective_wait ∧
              effective_wait ≤ MAX_TRANSFER_TIME_MINUTES then
            (⟨st.tps ++ [⟨o, i, effective_wait, 0, 2⟩],
              out_stop :: st.matched_outbound, in_stop :: st.matched_inbound⟩ : S2State)
          else st
        s2_in_segs o eff_arrival out_stop in_stop rest st'

/-- Strategy 2, loop over outbound segments at `out_stop`. -/
def s2_out_segs (ins : List InboundSegment) (out_stop in_stop : String) :
    List OutboundSegment → S2State → Option S2State
  | [], st => some st
  | o :: rest, st =>
    if o.xfer_stop_id = out_stop then
      match gtfs_time_to_seconds o.xfer_arrival with
      | none => none
      | some arrival_seconds =>
        match s2_in_segs o (arrival_seconds + 2 * 60) out_stop in_stop
            (inboundAt ins in_stop) st with
        | none => none
        | some st' => s2_out_segs ins out_stop in_stop rest st'
    else s2_out_segs ins out_stop in_stop rest st

/-- Strategy 2, loop over `outbound_parent_stations[parent]`. -/
def s2_out_stops (outs : List OutboundSegment) (ins : List InboundSegment)
    (in_stop : String) : List String → S2State → Option S2State
  | [], st => some st
  | out_stop :: rest, st =>
    match s2_out_segs ins out_stop in_stop outs st with
    | none => none
    | some st' => s2_out_stops outs ins in_stop rest st'

/-- Strategy 2, outer loop over inbound stops: skip common stops, stops
without a truthy parent station, and parents with no outbound entry. -/
def s2_in_stops (loc : String → Option StopLocation) (common_stops : List String)
    (outbound_stops : List String) (outs : List OutboundSegment)
    (ins : List InboundSegment) : List String → S2State → Option S2State
  | [], st => some st
  | in_stop :: rest, st =>
    if in_stop ∈ common_stops then
      s2_in_stops loc common_stops outbound_stops outs ins rest st
    else
      match loc in_stop with
      | none => s2_in_stops loc common_stops outbound_stops outs ins rest st
      | some l =>
        if truthyParent l.parent_station then
          match l.parent_station with
          | none => s2_in_stops loc common_stops outbound_stops outs ins rest st
          | some parent =>
            let entry := outbound_stops.filter (fun sid => hasParentStation loc sid parent)
            if entry = [] then s2_in_stops loc common_stops outbound_stops outs ins rest st
            else
              match s2_out_stops outs ins in_stop entry st with
              | none => none
              | some st' => s2_in_stops loc common_stops outbound_stops outs ins rest st'
        else s2_in_stops loc common_stops outbound_stops outs ins rest st

/-- Strategy 3, innermost loop: inbound segments at `in_stop`, with the
walking time already added to `eff_arrival`. -/
def s3_in_segs (o : OutboundSegment) (eff_arrival : Int) (distance : ℚ)
    (walk_minutes : Int) : List InboundSegment → List TransferPoint →
      Option (List TransferPoint)
  | [], acc => some acc
  | i :: rest, acc =>
    if o.route_id = i.route_id then s3_in_segs o eff_arrival distance walk_minutes rest acc
    else
      match gtfs_time_to_seconds i.xfer_departure with
      | none => none
      | some departure_seconds =>
        let effective_wait := Int.fdiv (departure_seconds - eff_arrival) 60
        let acc' :=
          if MIN_TRANSFER_TIME_MINUTES ≤ effective_wait ∧
              effective_wait ≤ MAX_TRANSFER_TIME_MINUTES then
            acc ++ [⟨o, i, effective_wait, distance, walk_minutes⟩]
          else acc
        s3_in_segs o eff_arrival distance walk_minutes rest acc'

/-- Strategy 3, loop over outbound segments at `out_stop`. -/
def s3_out_segs (ins : List InboundSegment) (out_stop in_stop : String) (distance : ℚ)
    (walk_minutes : Int) : List OutboundSegment → List TransferPoint →
      Option (List TransferPoint)
  | [], acc => some acc
  | o :: rest, acc =>
    if o.xfer_stop_id = out_stop then
      match gtfs_time_to_seconds o.xfer_arrival with
      | none => none
      | some arrival_seconds =>
        match s3_in_segs o (arrival_seconds + walk_minutes * 60) distance walk_minutes
            (inboundAt ins in_stop) acc with
        | none => none
        | some acc' => s3_out_segs ins out_stop in_stop distance walk_minutes rest acc'
    else s3_out_segs ins out_stop in_stop distance walk_minutes rest acc

/-- Strategy 3, loop over unmatched inbound stops for one outbound stop:
skip missing locations and distances beyond the walking limit;
`walk_minutes = int(distance / 80) + 1`. -/
def s3_in_stops (loc : String → Option StopLocation) (hav : ℚ → ℚ → ℚ → ℚ → ℚ)
    (outs : List OutboundSegment) (ins : List InboundSegment)
    (out_stop : String) (out_loc : StopLocation) :
    List String → List TransferPoint → Option (List TransferPoint)
  | [], acc => some acc
  | in_stop :: rest, acc =>
    match loc in_stop with
    | none => s3_in_stops loc hav outs ins out_stop out_loc rest acc
    | some in_loc =>
      let distance := hav out_loc.lat out_loc.lon in_loc.lat in_loc.lon
      if MAX_WALKING_DISTANCE_METERS < distance then
        s3_in_stops loc hav outs ins out_stop out_loc rest acc
      else
        let walk_minutes := pyIntTrunc (distance / 80) + 1
        match s3_out_segs ins out_stop in_stop distance walk_minutes outs acc with
        | none => none
        | some acc' => s3_in_stops loc hav outs ins out_stop out_loc rest acc'

/-- Strategy 3, outer loop over unmatched outbound stops. -/
def s3_out_stops (loc : String → Option StopLocation) (hav : ℚ → ℚ → ℚ → ℚ → ℚ)
    (outs : List OutboundSegment) (ins : List InboundSegment)
    (unmatched_inbound : List String) :
    List String → List TransferPoint → Option (List TransferPoint)
  | [], acc => some acc
  | out_stop :: rest, acc =>
    match loc out_stop with
    | none => s3_out_stops loc hav outs ins unmatched_inbound rest acc
    | some out_loc =>
      match s3_in_stops loc hav outs ins out_stop out_loc unmatched_inbound acc with
      | none => none
      | some acc' => s3_out_stops loc hav outs ins unmatched_inbound rest acc'

/-- Model of `_find_transfer_points`: strategy 1 (same stop), then
strategy 2 (same parent station, threading the matched-stop sets), then
strategy 3 (proximity) on the stops left unmatched. -/
def find_transfer_points (loc : String → Option StopLocation)
    (hav : ℚ → ℚ → ℚ → ℚ → ℚ)
    (outbound_segments : List OutboundSegment)
    (inbound_segments : List InboundSegment) : Option (List TransferPoint) :=
  let outbound_stops := (outbound_segments.map (·.xfer_stop_id)).dedup
  let inbound_stops := (inbound_segments.map (·.xfer_stop_id)).dedup
  let common_stops := outbound_stops.filter (fun s => s ∈ inbound_stops)
  match same_stop_outer inbound_segments common_stops outbound_segments with
  | none => none
  | some tps1 =>
    match s2_in_stops loc common_stops outbound_stops outbound_segments inbound_segments
        inbound_stops ⟨tps1, [], []⟩ with
    | none => none
    | some st =>
      let unmatched_outbound := outbound_stops.filter
        (fun s => s ∉ common_stops ∧ s ∉ st.matched_outbound)
      let unmatched_inbound := inbound_stops.filter
        (fun s => s ∉ common_stops ∧ s ∉ st.matched_inbound)
      s3_out_stops loc hav outbound_segments inbound_segments unmatched_inbound
        unmatched_outbound st.tps

/-- The C1 invariant: distinct routes, wait within bounds, and the stored
wait is the floor-divided gap between the inbound departure and the
outbound arrival plus the walk/buffer minutes. -/
def transfer_point_wait_ok (tp : TransferPoint) : Prop :=
  tp.outbound.route_id ≠ tp.inbound.route_id ∧
  MIN_TRANSFER_TIME_MINUTES ≤ tp.wait_minutes ∧
  tp.wait_minutes ≤ MAX_TRANSFER_TIME_MINUTES ∧
  ∃ a d, gtfs_time_to_seconds tp.outbound.xfer_arrival = some a ∧
    gtfs_time_to_seconds tp.inbound.xfer_departure = some d ∧
    tp.wait_minutes = Int.fdiv (d - (a + tp.walk_minutes * 60)) 60

theorem same_stop_inner_ok {o : OutboundSegment} {arrival_seconds : Int}
    (ha : gtfs_time_to_seconds o.xfer_arrival = some arrival_seconds) :
    ∀ (l : List InboundSegment) (res : List TransferPoint),
      same_stop_inner o arrival_seconds l = some res →
      ∀ tp ∈ res, transfer_point_wait_ok tp := by
  intro l
  induction l with
  | nil =>
    intro res h tp htp
    simp only [same_stop_inner, Option.some.injEq] at h
    subst h
    simp at htp
  | cons i rest ih =>
    intro res h tp htp
    by_cases hroute : o.route_id = i.route_id
    · simp only [same_stop_inner] at h
      rw [if_pos hroute] at h
      exact ih res h tp htp
    · simp only [same_stop_inner] at h
      rw [if_neg hroute] at h
      rcases hd : gtfs_time_to_seconds i.xfer_departure with _ | d
      · rw [hd] at h; exact absurd h (by simp)
      · rw [hd] at h
        rcases ht : same_stop_inner o arrival_seconds rest with _ | tail
        · rw [ht] at h; exact absurd h (by simp)
        · rw [ht] at h
          simp only [Option.some.injEq] at h
          subst h
          by_cases hcond : MIN_TRANSFER_TIME_MINUTES ≤
              Int.fdiv (d - arrival_seconds) 60 ∧
              Int.fdiv (d - arrival_seconds) 60 ≤ MAX_TRANSFER_TIME_MINUTES
          · rw [if_pos hcond] at htp
            rcases List.mem_cons.mp htp with rfl | htp
            · exact ⟨hroute, hcond.1, hcond.2, arrival_seconds, d, ha, hd, by norm_num⟩
            · exact ih tail ht tp htp
          · rw [if_neg hcond] at htp
            exact ih tail ht tp htp

theorem same_stop_outer_ok {ins : List InboundSegment} {common_stops : List String} :
    ∀ (l : List OutboundSegment) (res : List TransferPoint),
      same_stop_outer ins common_stops l = some res →
      ∀ tp ∈ res, transfer_point_wait_ok tp := by
  intro l
  induction l with
  | nil =>
    intro res h tp htp
    simp only [same_stop_outer, Option.some.injEq] at h
    subst h
    simp at htp
  | cons o rest ih =>
    intro res h tp htp
    simp only [same_stop_outer] at h
    split at h
    · split at h
      · exact absurd h (by simp)
      · rename_i a ha
        split at h
        · exact absurd h (by simp)
        · rename_i here hh
          split at h
          · exact absurd h (by simp)
          · rename_i tail ht
            simp only [Option.some.injEq] at h
            subst h
            rcases List.mem_append.mp htp with htp | htp
            · exact same_stop_inner_ok ha _ here hh tp htp
            · exact ih tail ht tp htp
    · exact ih res h tp htp

/-- All transfer points in a strategy-2 state satisfy the invariant. -/
def S2Ok (st : S2State) : Prop := ∀ tp ∈ st.tps, transfer_point_wait_ok tp

theorem s2_in_segs_ok {o : OutboundSegment} {a : Int} {out_stop in_stop : String}
    (ha : gtfs_time_to_seconds o.xfer_arrival = some a) :
    ∀ (l : List InboundSegment) (st st' : S2State),
      s2_in_segs o (a + 2 * 60) out_stop in_stop l st = some st' →
      S2Ok st → S2Ok st' := by
  intro l
  induction l with
  | nil =>
    intro st st' h hok
    simp only [s2_in_segs, Option.some.injEq] at h
    subst h
    exact hok
  | cons i rest ih =>
    intro st st' h hok
    simp only [s2_in_segs] at h
    split at h
    · exact ih st st' h hok
    · rename_i hroute
      split at h
      · exact absurd h (by simp)
      · rename_i d hd
        split at h
        · rename_i hcond
          refine ih _ st' h ?_
          intro tp htp
          rcases List.mem_append.mp htp with htp | htp
          · exact hok tp htp
          · rcases List.mem_singleton.mp htp with rfl
            exact ⟨hroute, hcond.1, hcond.2, a, d, ha, hd, rfl⟩
        · exact ih st st' h hok

theorem s2_out_segs_ok {ins : List InboundSegment} {out_stop in_stop : String} :
    ∀ (l : List OutboundSegment) (st st' : S2State),
      s2_out_segs ins out_stop in_stop l st = some st' → S2Ok st → S2Ok st' := by
  intro l
  induction l with
  | nil =>
    intro st st' h hok
    simp only [s2_out_segs, Option.some.injEq] at h
    subst h
    exact hok
  | cons o rest ih =>
    intro st st' h hok
    simp only [s2_out_segs] at h
    split at h
    · split at h
      · exact absurd h (by simp)
      · rename_i a ha
        split at h
        · exact absurd h (by simp)
        · rename_i st1 hmid
          exact ih st1 st' h (s2_in_segs_ok ha _ st st1 hmid hok)
    · exact ih st st' h hok

theorem s2_out_stops_ok {outs : List OutboundSegment} {ins : List InboundSegment}
    {in_stop : String} :
    ∀ (l : List String) (st st' : S2State),
      s2_out_stops outs ins in_stop l st = some st' → S2Ok st → S2Ok st' := by
  intro l
  induction l with
  | nil =>
    intro st st' h hok
    simp only [s2_out_stops, Option.some.injEq] at h
    subst h
    exact hok
  | cons out_stop rest ih =>
    intro st st' h hok
    simp only [s2_out_stops] at h
    split at h
    · exact absurd h (by simp)
    · rename_i st1 hmid
      exact ih st1 st' h (s2_out_segs_ok _ st st1 hmid hok)

theorem s2_in_stops_ok {loc : String → Option StopLocation} {common_stops : List String}
    {outbound_stops : List String} {outs : List OutboundSegment}
    {ins : List InboundSegment} :
    ∀ (l : List String) (st st' : S2State),
      s2_in_stops loc common_stops outbound_stops outs ins l st = some st' →
      S2Ok st → S2Ok st' := by
  intro l
  induction l with
  | nil =>
    intro st st' h hok
    simp only [s2_in_stops, Option.some.injEq] at h
    subst h
    exact hok
  | cons in_stop rest ih =>
    intro st st' h hok
    simp only [s2_in_stops] at h
    split at h
    · exact ih st st' h hok
    · split at h
      · exact ih st st' h hok
      · split at h
        · split at h
          · exact ih st st' h hok
          · split at h
            · exact ih st st' h hok
            · split at h
              · exact absurd h (by simp)
              · rename_i st1 hmid
                exact ih st1 st' h (s2_out_stops_ok _ st st1 hmid hok)
        · exact ih st st' h hok

theorem s3_in_segs_ok {o : OutboundSegment} {a : Int} {distance : ℚ}
    {walk_minutes : Int} (ha : gtfs_time_to_seconds o.xfer_arrival = some a) :
    ∀ (l : List InboundSegment) (acc res : List TransferPoint),
      s3_in_segs o (a + walk_minutes * 60) distance walk_minutes l acc = some res →
      (∀ tp ∈ acc, transfer_point_wait_ok tp) →
      ∀ tp ∈ res, transfer_point_wait_ok tp := by
  intro l
  induction l with
  | nil =>
    intro acc res h hok
    simp only [s3_in_segs, Option.some.injEq] at h
    subst h
    exact hok
  | cons i rest ih =>
    intro acc res h hok
    simp only [s3_in_segs] at h
    split at h
    · exact ih acc res h hok
    · rename_i hroute
      split at h
      · exact absurd h (by simp)
      · rename_i d hd
        split at h
        · rename_i hcond
          refine ih _ res h ?_
          intro tp htp
          rcases List.mem_append.mp htp with htp | htp
          · exact hok tp htp
          · rcases List.mem_singleton.mp htp with rfl
            exact ⟨hroute, hcond.1, hcond.2, a, d, ha, hd, rfl⟩
        · exact ih acc res h hok

theorem s3_out_segs_ok {ins : List InboundSegment} {out_stop in_stop : String}
    {distance : ℚ} {walk_minutes : Int} :
    ∀ (l : List OutboundSegment) (acc res : List TransferPoint),
      s3_out_segs ins out_stop in_stop distance walk_minutes l acc = some res →
      (∀ tp ∈ acc, transfer_point_wait_ok tp) →
      ∀ tp ∈ res, transfer_point_wait_ok tp := by
  intro l
  induction l with
  | nil =>
    intro acc res h hok
    simp only [s3_out_segs, Option.some.injEq] at h
    subst h
    exact hok
  | cons o rest ih =>
    intro acc res h hok
    simp only [s3_out_segs] at h
    split at h
    · split at h
      · exact absurd h (by simp)
      · rename_i a ha
        split at h
        · exact absurd h (by simp)
        · rename_i acc1 hmid
          exact ih acc1 res h (s3_in_segs_ok ha _ acc acc1 hmid hok)
    · exact ih acc res h hok

theorem s3_in_stops_ok {loc : String → Option StopLocation} {hav : ℚ → ℚ → ℚ → ℚ → ℚ}
    {outs : List OutboundSegment} {ins : List InboundSegment} {out_stop : String}
    {out_loc : StopLocation} :
    ∀ (l : List String) (acc res : List TransferPoint),
      s3_in_stops loc hav outs ins out_stop out_loc l acc = some res →
      (∀ tp ∈ acc, transfer_point_wait_ok tp) →
      ∀ tp ∈ res, transfer_point_wait_ok tp := by
  intro l
  induction l with
  | nil =>
    intro acc res h hok
    simp only [s3_in_stops, Option.some.injEq] at h
    subst h
    exact hok
  | cons in_stop rest ih =>
    intro acc res h hok
    simp only [s3_in_stops] at h
    split at h
    · exact ih acc res h hok
    · split at h
      · exact ih acc res h hok
      · split at h
        · exact absurd h (by simp)
        · rename_i acc1 hmid
          exact ih acc1 res h (s3_out_segs_ok _ acc acc1 hmid hok)

theorem s3_out_stops_ok {loc : String → Option StopLocation} {hav : ℚ → ℚ → ℚ → ℚ → ℚ}
    {outs : List OutboundSegment} {ins : List InboundSegment}
    {unmatched_inbound : List String} :
    ∀ (l : List String) (acc res : List TransferPoint),
      s3_out_stops loc hav outs ins unmatched_inbound l acc = some res →
      (∀ tp ∈ acc, transfer_point_wait_ok tp) →
      ∀ tp ∈ res, transfer_point_wait_ok tp := by
  intro l
  induction l with
  | nil =>
    intro acc res h hok
    simp only [s3_out_stops, Option.some.injEq] at h
    subst h
    exact hok
  | cons out_stop rest ih =>
    intro acc res h hok
    simp only [s3_out_stops] at h
    split at h
    · exact ih acc res h hok
    · split at h
      · exact absurd h (by simp)
      · rename_i acc1 hmid
        exact ih acc1 res h (s3_in_stops_ok _ acc acc1 hmid hok)

/-- C1 confirmed: every `TransferPoint` produced by `_find_transfer_points`
— under any of the three strategies and for any stop locations and any
distance function — pairs segments of distinct routes, and its stored
`wait_minutes` (the effective wait: inbound departure minus outbound
arrival minus the walk/buffer seconds, floor-divided by 60) lies between
`MIN_TRANSFER_TIME_MINUTES = 3` and `MAX_TRANSFER_TIME_MINUTES = 30`
inclusive. -/
theorem c1_transfer_point_invariant (loc : String → Option StopLocation)
    (hav : ℚ → ℚ → ℚ → ℚ → ℚ) (outs : List OutboundSegment)
    (ins : List InboundSegment) (tps : List TransferPoint)
    (h : find_transfer_points loc hav outs ins = some tps) :
    ∀ tp ∈ tps, tp.outbound.route_id ≠ tp.inbound.route_id ∧
      MIN_TRANSFER_TIME_MINUTES ≤ tp.wait_minutes ∧
      tp.wait_minutes ≤ MAX_TRANSFER_TIME_MINUTES ∧
      ∃ a d, gtfs_time_to_seconds tp.outbound.xfer_arrival = some a ∧
        gtfs_time_to_seconds tp.inbound.xfer_departure = some d ∧
        tp.wait_minutes = Int.fdiv (d - (a + tp.walk_minutes * 60)) 60 := by
  simp only [find_transfer_points] at h
  split at h
  · exact absurd h (by simp)
  · rename_i tps1 heq1
    split at h
    · exact absurd h (by simp)
    · rename_i st heq2
      have h1 : ∀ tp ∈ tps1, transfer_point_wait_ok tp := same_stop_outer_ok _ tps1 heq1
      have h2 : S2Ok st := s2_in_stops_ok _ ⟨tps1, [], []⟩ st heq2 h1
      exact s3_out_stops_ok _ st.tps tps h h2

/-- Fixture: an outbound segment arriving at stop `S` at 09:10 on route
`R1`. -/
def exOutSeg : OutboundSegment :=
  ⟨"T1", "R1", none, 3, none, "09:00:00", 1, "S", "09:10:00", 5⟩

/-- Fixture: an inbound segment departing stop `S` at 09:15 on route
`R2`. -/
def exInSeg : InboundSegment :=
  ⟨"T2", "R2", none, 3, none, "S", "09:15:00", 2, "09:40:00", 9⟩

theorem c1_transfer_point_invariant_witness :
    find_transfer_points (fun _ => none) (fun _ _ _ _ => 0) [exOutSeg] [exInSeg] =
      some [⟨exOutSeg, exInSeg, 5, 0, 0⟩] ∧
    (⟨exOutSeg, exInSeg, 5, 0, 0⟩ : TransferPoint).outbound.route_id ≠
      (⟨exOutSeg, exInSeg, 5, 0, 0⟩ : TransferPoint).inbound.route_id ∧
    MIN_TRANSFER_TIME_MINUTES ≤
      (⟨exOutSeg, exInSeg, 5, 0, 0⟩ : TransferPoint).wait_minutes ∧
    (⟨exOutSeg, exInSeg, 5, 0, 0⟩ : TransferPoint).wait_minutes ≤
      MAX_TRANSFER_TIME_MINUTES := by
  have h : find_transfer_points (fun _ => none) (fun _ _ _ _ => 0) [exOutSeg] [exInSeg] =
      some [⟨exOutSeg, exInSeg, 5, 0, 0⟩] := by decide
  have hc := c1_transfer_point_invariant (fun _ => none) (fun _ _ _ _ => 0)
    [exOutSeg] [exInSeg] [⟨exOutSeg, exInSeg, 5, 0, 0⟩] h
    ⟨exOutSeg, exInSeg, 5, 0, 0⟩ (by simp)
  exact ⟨h, hc.1, hc.2.1, hc.2.2.1⟩

end StmMcp
